import Mathlib

/-!
# globaldataburst-go: the Messenger client

A shallow embedding of package gdb (src/gdb/message.go, src/gdb/messenger.go,
src/gdb/client.go). Go strings are byte sequences, pointers to scalars are options,
slices distinguish nil from empty. The network and the leaves of the Go standard
library that the client calls (URL parsing, the JSON lexer, float and time text
conversions) are fields of an environment; everything the repository itself
computes is defined here.
-/

set_option linter.dupNamespace false
set_option maxRecDepth 100000

namespace Gdb

/-! ## Go strings -/

/-- A Go byte (uint8). -/
abbrev byte := Fin 256

/-- A Go string: an immutable sequence of bytes. -/
abbrev GoString := List byte

/-- The Go string written by a string literal (its UTF-8 bytes). -/
def str (s : String) : GoString := s.toUTF8.data.toList.map (fun u => u.val)

/-- Truncating conversion of an integer to a byte, Go byte(x). -/
def toByte (n : Nat) : byte := Fin.ofNat n

/-- Go runtime encoderune: the UTF-8 encoding of code point r; values that are not
valid code points encode as U+FFFD. -/
def encoderune (r : Nat) : GoString :=
  if r ≤ 0x7F then [toByte r]
  else if r ≤ 0x7FF then
    [toByte (0xC0 ||| (r >>> 6) % 256), toByte (0x80 ||| (r % 256 &&& 0x3F))]
  else if r > 0x10FFFF ∨ (0xD800 ≤ r ∧ r ≤ 0xDFFF) then [0xEF, 0xBF, 0xBD]
  else if r ≤ 0xFFFF then
    [toByte (0xE0 ||| (r >>> 12) % 256), toByte (0x80 ||| ((r >>> 6) % 256 &&& 0x3F)),
     toByte (0x80 ||| (r % 256 &&& 0x3F))]
  else
    [toByte (0xF0 ||| (r >>> 18) % 256), toByte (0x80 ||| ((r >>> 12) % 256 &&& 0x3F)),
     toByte (0x80 ||| ((r >>> 6) % 256 &&& 0x3F)), toByte (0x80 ||| (r % 256 &&& 0x3F))]

/-- The Go conversion string(b) of a byte b: an integer converted to a string yields
the UTF-8 representation of that code point. -/
def stringOfByte (b : byte) : GoString := encoderune b.val

/-- Go strconv.FormatBool. -/
def FormatBool (b : Bool) : GoString := if b then str "true" else str "false"

/-- Decimal digits of a natural number, as ASCII bytes. -/
def decimal (n : Nat) : GoString := (Nat.toDigits 10 n).map (fun c => toByte c.toNat)

/-! ## time.Time and the RFC3339 layout -/

/-- A time.Time, presented as Time.Date, Time.Clock and Time.Zone present it: the
calendar fields of the instant in its location, and the zone offset in seconds
east of UTC. -/
structure Time where
  year : Int
  month : Nat
  day : Nat
  hour : Nat
  min : Nat
  sec : Nat
  nsec : Nat
  offset : Int
  deriving DecidableEq, Repr

/-- The zero time.Time: January 1, year 1, 00:00:00 UTC. -/
def Time.zero : Time := ⟨1, 1, 1, 0, 0, 0, 0, 0⟩

/-- Go time.appendInt: x in decimal, a minus sign first when negative, zero-padded
to width digits. -/
def appendInt (b : GoString) (x : Int) (width : Nat) : GoString :=
  let b := if x < 0 then b ++ str "-" else b
  let ds := decimal x.natAbs
  b ++ List.replicate (width - ds.length) (toByte 48) ++ ds

/-- The zone suffix of the layout element Z07:00: Z for offset zero, otherwise
a sign, hours and minutes. -/
def appendZone (b : GoString) (offset : Int) : GoString :=
  if offset = 0 then b ++ str "Z"
  else
    let zone := Int.tdiv offset 60
    let b := if zone < 0 then b ++ str "-" else b ++ str "+"
    let zone := if zone < 0 then -zone else zone
    let b := appendInt b (Int.tdiv zone 60) 2
    let b := b ++ str ":"
    appendInt b (Int.tmod zone 60) 2

/-- The value of t.Format(time.RFC3339), layout 2006-01-02T15:04:05Z07:00. -/
def Time.FormatRFC3339 (t : Time) : GoString :=
  let b := appendInt [] t.year 4
  let b := b ++ str "-"
  let b := appendInt b t.month 2
  let b := b ++ str "-"
  let b := appendInt b t.day 2
  let b := b ++ str "T"
  let b := appendInt b t.hour 2
  let b := b ++ str ":"
  let b := appendInt b t.min 2
  let b := b ++ str ":"
  let b := appendInt b t.sec 2
  appendZone b t.offset

/-! ## Errors -/

/-- A Go error value, identified by the text its Error method returns. -/
structure GoError where
  msg : GoString
  deriving DecidableEq, Repr

/-- Go errors.New. -/
def errorsNew (text : GoString) : GoError := ⟨text⟩

/-- A Go slice: nil, or a (possibly empty) sequence of elements. -/
abbrev Slice (α : Type) := Option (List α)

/-! ## JSON documents -/

/-- A JSON number literal: optional minus sign, integer part, and the text of the
fraction and exponent parts when present. -/
structure NumLit where
  neg : Bool
  int : Nat
  frac : Option GoString
  exp : Option GoString
  deriving DecidableEq, Repr

/-- A JSON document, as the encoding/json scanner reads it: object members are kept
in document order, strings are already unquoted. -/
inductive JSON where
  | null : JSON
  | bool (b : Bool) : JSON
  | num (n : NumLit) : JSON
  | str (s : GoString) : JSON
  | arr (xs : List JSON) : JSON
  | obj (members : List (GoString × JSON)) : JSON

/-- A Go float64, identified by its IEEE 754 bit pattern. -/
structure float64 where
  bits : Nat
  deriving DecidableEq, Repr

/-- The literal encoding/json writes for a Go int. -/
def intLit (i : Int) : NumLit := ⟨decide (i < 0), i.natAbs, none, none⟩

/-- Go strconv.ParseInt(lit, 10, 64) on a JSON number literal: the literal must
have neither fraction nor exponent and fit in 64 bits. -/
def parseInt (n : NumLit) : Option Int :=
  match n.frac, n.exp with
  | none, none =>
    let v : Int := if n.neg then -(n.int : Int) else (n.int : Int)
    if -(2 : Int) ^ 63 ≤ v ∧ v < (2 : Int) ^ 63 then some v else none
  | _, _ => none

/-! ## The data model (message.go) -/

/-- RepeatOptions holds redelivery parameters. -/
structure RepeatOptions where
  Count : Int
  Interval : Int
  deriving DecidableEq, Repr

/-- BroadcastCoverageArea holds a delivery area. -/
structure BroadcastCoverageArea where
  Code : GoString
  Name : GoString
  GdaCount : Int
  Gdas : Slice Int
  deriving DecidableEq, Repr

/-- DeliveryPoint holds a lat/long and radius based delivery point. -/
structure DeliveryPoint where
  Latitude : float64
  Longitude : float64
  Radius : Int
  deriving DecidableEq, Repr

/-- Message holds a message you want to send. The first four fields carry the
struct tag json:"-". -/
structure Message where
  Message : GoString
  ServiceMask : Option byte
  IMEI : Option GoString
  SendDirect : Bool
  RepeatOptions : RepeatOptions
  DeliveryTime : Time
  ExpirationTime : Time
  BroadcastCoverageAreas : Slice BroadcastCoverageArea
  GlobalDeliveryAreas : Slice Int
  DeliveryPoints : Slice DeliveryPoint
  deriving DecidableEq, Repr

/-- RepeatMessage holds a repeatable message for sending. -/
structure RepeatMessage where
  DeliveryOptions : RepeatOptions
  GdbRepeatMessageType : Int
  IMEI : GoString
  TransmissionDelay : Int
  RepeatCount : Int
  RepeatInterval : Int
  RicCode : GoString
  GroupCode : GoString
  Payload : Slice byte
  deriving DecidableEq, Repr

/-- Lookup holds the details of historical messages the API returns. -/
structure Lookup where
  MessageID : Int
  CreatedOn : Time
  MessageText : GoString
  DeliveryStatus : GoString
  IridiumMessageID : GoString
  RepeatCount : Int
  RepeatInterval : Int
  BroadcastCoverageAreaCodes : GoString
  Latitude : float64
  Longitude : float64
  Radius : Int
  ServiceMask : Int
  MessageCost : float64
  Sender : GoString
  AccountID : Int
  CustomerNumber : Int
  Services : Slice GoString
  deriving DecidableEq, Repr

/-- The zero RepeatOptions. -/
def RepeatOptions.zero : RepeatOptions := ⟨0, 0⟩

/-- The zero BroadcastCoverageArea. -/
def BroadcastCoverageArea.zero : BroadcastCoverageArea := ⟨[], [], 0, none⟩

/-- The zero DeliveryPoint. -/
def DeliveryPoint.zero : DeliveryPoint := ⟨⟨0⟩, ⟨0⟩, 0⟩

/-- The zero Message (var m Message). -/
def Message.zero : Gdb.Message :=
  ⟨[], none, none, false, RepeatOptions.zero, Time.zero, Time.zero, none, none, none⟩

/-- The zero Lookup. -/
def Lookup.zero : Lookup :=
  ⟨0, Time.zero, [], [], [], 0, 0, [], ⟨0⟩, ⟨0⟩, 0, 0, ⟨0⟩, [], 0, 0, none⟩

/-! ## HTTP (net/http) -/

/-- Go net/textproto validHeaderFieldByte: the token characters of RFC 7230. -/
def validHeaderFieldByte (c : byte) : Bool :=
  (48 ≤ c.val && c.val ≤ 57) || (65 ≤ c.val && c.val ≤ 90) || (97 ≤ c.val && c.val ≤ 122) ||
  (str "!#$%&*+-.^_|~").contains c || c.val = 39 || c.val = 96

/-- The canonicalising loop of net/textproto: upper case for the first letter and
for a letter after a hyphen, lower case elsewhere. -/
def canonLoop : Bool → GoString → GoString
  | _, [] => []
  | upper, c :: cs =>
    let c : byte :=
      if upper && (97 ≤ c.val && c.val ≤ 122) then toByte (c.val - 32)
      else if !upper && (65 ≤ c.val && c.val ≤ 90) then toByte (c.val + 32)
      else c
    c :: canonLoop (c.val = 45) cs

/-- Go net/textproto CanonicalMIMEHeaderKey: a key holding a byte that is no token
character is returned unchanged. -/
def CanonicalMIMEHeaderKey (s : GoString) : GoString :=
  if s.all validHeaderFieldByte then canonLoop true s else s

/-- A http.Header: canonical key to the values added under it. -/
abbrev Header := List (GoString × List GoString)

/-- Go Header.Add: appends value to the values of the canonicalised key. -/
def Header.Add (h : Header) (key value : GoString) : Header :=
  let k := CanonicalMIMEHeaderKey key
  match h.lookup k with
  | some vs => h.map (fun kv => if kv.1 = k then (kv.1, vs ++ [value]) else kv)
  | none => h ++ [(k, [value])]

/-- Go Header.Values: the values of the canonicalised key. -/
def Header.Values (h : Header) (key : GoString) : List GoString :=
  (h.lookup (CanonicalMIMEHeaderKey key)).getD []

/-- A http.Request, as far as the client sets it: method, the URL string it was
built from, header, and the body bytes (none for a nil body). -/
structure Request where
  Method : GoString
  URL : GoString
  Header : Header
  Body : Option GoString
  deriving DecidableEq, Repr

/-- A http.Response: status code, and what reading the whole body yields. -/
structure Response where
  StatusCode : Int
  Body : Except GoError GoString

/-- The http.Client configuration of client.go (durations in seconds). -/
structure Client where
  InsecureSkipVerify : Bool
  DialTimeout : Nat
  KeepAlive : Nat
  MaxIdleConns : Nat
  MaxIdleConnsPerHost : Nat
  TLSHandshakeTimeout : Nat
  Timeout : Nat
  deriving DecidableEq, Repr

/-- Constant keepAliveTimeout of client.go. -/
def keepAliveTimeout : Nat := 10

/-- Constant timeout of client.go. -/
def timeout : Nat := 10

/-- Function newClient of client.go. -/
def newClient : Client :=
  { InsecureSkipVerify := true
    DialTimeout := 5
    KeepAlive := keepAliveTimeout
    MaxIdleConns := 10
    MaxIdleConnsPerHost := 10
    TLSHandshakeTimeout := 5
    Timeout := timeout }

/-- What the client takes from outside the repository: the network behind
http.Client.Do and the leaves of the Go standard library. -/
structure Env where
  /-- The error of net/url.Parse for a URL string it rejects (http.NewRequest). -/
  parseURL : GoString → Option GoError
  /-- The round trip of http.Client.Do. -/
  Do : Client → Request → Except GoError Response
  /-- The text the encoding/json encoder writes for a document. -/
  jsonText : JSON → GoString
  /-- The encoding/json scanner: the document of a text, or its syntax error. -/
  jsonScan : GoString → Except GoError JSON
  /-- The literal of a float64 (strconv.FormatFloat); NaN and infinities are an error. -/
  formatFloat : float64 → Except GoError NumLit
  /-- Go strconv.ParseFloat(lit, 64); none is a range error. -/
  parseFloat : NumLit → Option float64
  /-- Method Time.MarshalJSON. -/
  timeMarshalJSON : Time → Except GoError JSON
  /-- Method Time.UnmarshalJSON on a value other than null. -/
  timeUnmarshalJSON : JSON → Except GoError Time
  /-- What a failed Time.UnmarshalJSON leaves in its receiver. -/
  timeAfterFailure : Time → JSON → Time
  /-- The standard base64 text of a byte slice. -/
  base64 : List byte → GoString
  /-- The case folding encoding/json applies to object keys and field names. -/
  foldName : GoString → GoString
  /-- The json.UnmarshalTypeError for a value that does not fit a Go type. -/
  typeError : JSON → GoString → GoError

/-- Go http.NewRequest for the methods GET and POST: fails when the URL does not
parse, otherwise a request with an empty header. -/
def NewRequest (env : Env) (method url : GoString) (body : Option GoString) :
    Except GoError Request :=
  match env.parseURL url with
  | some err => .error err
  | none => .ok { Method := method, URL := url, Header := [], Body := body }

/-! ## json.Marshal of the message types

The encoder walks the exported fields of a struct in declaration order and leaves
out the fields tagged json:"-". A nil slice is written as null. -/

/-- Field names of RepeatOptions. -/
inductive RepeatOptionsField where
  | Count | Interval
  deriving DecidableEq, Repr

/-- Field names of BroadcastCoverageArea. -/
inductive CoverageAreaField where
  | Code | Name | GdaCount | Gdas
  deriving DecidableEq, Repr

/-- Field names of DeliveryPoint. -/
inductive DeliveryPointField where
  | Latitude | Longitude | Radius
  deriving DecidableEq, Repr

/-- The fields of Message that encoding/json sees: those without the tag json:"-". -/
inductive MessageField where
  | RepeatOptions | DeliveryTime | ExpirationTime | BroadcastCoverageAreas
  | GlobalDeliveryAreas | DeliveryPoints
  deriving DecidableEq, Repr

/-- Field names of Lookup. -/
inductive LookupField where
  | MessageID | CreatedOn | MessageText | DeliveryStatus | IridiumMessageID | RepeatCount
  | RepeatInterval | BroadcastCoverageAreaCodes | Latitude | Longitude | Radius
  | ServiceMask | MessageCost | Sender | AccountID | CustomerNumber | Services
  deriving DecidableEq, Repr

/-- JSON key of a RepeatOptions field. -/
def RepeatOptionsField.name : RepeatOptionsField → GoString
  | .Count => str "Count"
  | .Interval => str "Interval"

/-- All RepeatOptions fields, in declaration order. -/
def RepeatOptionsField.all : List RepeatOptionsField := [.Count, .Interval]

/-- JSON key of a BroadcastCoverageArea field. -/
def CoverageAreaField.name : CoverageAreaField → GoString
  | .Code => str "Code"
  | .Name => str "Name"
  | .GdaCount => str "GdaCount"
  | .Gdas => str "Gdas"

/-- All BroadcastCoverageArea fields, in declaration order. -/
def CoverageAreaField.all : List CoverageAreaField := [.Code, .Name, .GdaCount, .Gdas]

/-- JSON key of a DeliveryPoint field. -/
def DeliveryPointField.name : DeliveryPointField → GoString
  | .Latitude => str "Latitude"
  | .Longitude => str "Longitude"
  | .Radius => str "Radius"

/-- All DeliveryPoint fields, in declaration order. -/
def DeliveryPointField.all : List DeliveryPointField := [.Latitude, .Longitude, .Radius]

/-- JSON key of a Message field. -/
def MessageField.name : MessageField → GoString
  | .RepeatOptions => str "RepeatOptions"
  | .DeliveryTime => str "DeliveryTime"
  | .ExpirationTime => str "ExpirationTime"
  | .BroadcastCoverageAreas => str "BroadcastCoverageAreas"
  | .GlobalDeliveryAreas => str "GlobalDeliveryAreas"
  | .DeliveryPoints => str "DeliveryPoints"

/-- All JSON-visible Message fields, in declaration order. -/
def MessageField.all : List MessageField :=
  [.RepeatOptions, .DeliveryTime, .ExpirationTime, .BroadcastCoverageAreas,
   .GlobalDeliveryAreas, .DeliveryPoints]

/-- JSON key of a Lookup field. -/
def LookupField.name : LookupField → GoString
  | .MessageID => str "MessageID"
  | .CreatedOn => str "CreatedOn"
  | .MessageText => str "MessageText"
  | .DeliveryStatus => str "DeliveryStatus"
  | .IridiumMessageID => str "IridiumMessageID"
  | .RepeatCount => str "RepeatCount"
  | .RepeatInterval => str "RepeatInterval"
  | .BroadcastCoverageAreaCodes => str "BroadcastCoverageAreaCodes"
  | .Latitude => str "Latitude"
  | .Longitude => str "Longitude"
  | .Radius => str "Radius"
  | .ServiceMask => str "ServiceMask"
  | .MessageCost => str "MessageCost"
  | .Sender => str "Sender"
  | .AccountID => str "AccountID"
  | .CustomerNumber => str "CustomerNumber"
  | .Services => str "Services"

/-- All Lookup fields, in declaration order. -/
def LookupField.all : List LookupField :=
  [.MessageID, .CreatedOn, .MessageText, .DeliveryStatus, .IridiumMessageID, .RepeatCount,
   .RepeatInterval, .BroadcastCoverageAreaCodes, .Latitude, .Longitude, .Radius,
   .ServiceMask, .MessageCost, .Sender, .AccountID, .CustomerNumber, .Services]

/-- The document of a slice of ints. -/
def encodeInts : Slice Int → JSON
  | none => .null
  | some xs => .arr (xs.map (fun i => .num (intLit i)))

/-- The document of a RepeatOptions. -/
def RepeatOptions.encode (o : RepeatOptions) : JSON :=
  .obj [(RepeatOptionsField.Count.name, .num (intLit o.Count)),
        (RepeatOptionsField.Interval.name, .num (intLit o.Interval))]

/-- The document of a BroadcastCoverageArea. -/
def BroadcastCoverageArea.encode (a : BroadcastCoverageArea) : JSON :=
  .obj [(CoverageAreaField.Code.name, .str a.Code),
        (CoverageAreaField.Name.name, .str a.Name),
        (CoverageAreaField.GdaCount.name, .num (intLit a.GdaCount)),
        (CoverageAreaField.Gdas.name, encodeInts a.Gdas)]

/-- The document of a slice of coverage areas. -/
def encodeAreas : Slice BroadcastCoverageArea → JSON
  | none => .null
  | some xs => .arr (xs.map BroadcastCoverageArea.encode)

/-- The document of a DeliveryPoint; fails on a float64 that JSON cannot hold. -/
def DeliveryPoint.encode (env : Env) (p : DeliveryPoint) : Except GoError JSON :=
  match env.formatFloat p.Latitude with
  | .error err => .error err
  | .ok lat =>
    match env.formatFloat p.Longitude with
    | .error err => .error err
    | .ok lon =>
      .ok (.obj [(DeliveryPointField.Latitude.name, .num lat),
                 (DeliveryPointField.Longitude.name, .num lon),
                 (DeliveryPointField.Radius.name, .num (intLit p.Radius))])

/-- The documents of a list of delivery points; the first failure stops. -/
def encodePointList (env : Env) : List DeliveryPoint → Except GoError (List JSON)
  | [] => .ok []
  | p :: ps =>
    match DeliveryPoint.encode env p with
    | .error err => .error err
    | .ok j =>
      match encodePointList env ps with
      | .error err => .error err
      | .ok js => .ok (j :: js)

/-- The document of a slice of delivery points. -/
def encodePoints (env : Env) : Slice DeliveryPoint → Except GoError JSON
  | none => .ok .null
  | some ps =>
    match encodePointList env ps with
    | .error err => .error err
    | .ok js => .ok (.arr js)

/-- The document json.Marshal builds for a Message: the six fields without the tag
json:"-", in declaration order. -/
def Message.encode (env : Env) (msg : Gdb.Message) : Except GoError JSON :=
  match env.timeMarshalJSON msg.DeliveryTime with
  | .error err => .error err
  | .ok dt =>
    match env.timeMarshalJSON msg.ExpirationTime with
    | .error err => .error err
    | .ok et =>
      match encodePoints env msg.DeliveryPoints with
      | .error err => .error err
      | .ok dps =>
        .ok (.obj [(MessageField.RepeatOptions.name, msg.RepeatOptions.encode),
                   (MessageField.DeliveryTime.name, dt),
                   (MessageField.ExpirationTime.name, et),
                   (MessageField.BroadcastCoverageAreas.name, encodeAreas msg.BroadcastCoverageAreas),
                   (MessageField.GlobalDeliveryAreas.name, encodeInts msg.GlobalDeliveryAreas),
                   (MessageField.DeliveryPoints.name, dps)])

/-- Go json.Marshal(msg) for a Message. -/
def MarshalMessage (env : Env) (msg : Gdb.Message) : Except GoError GoString :=
  match Message.encode env msg with
  | .error err => .error err
  | .ok doc => .ok (env.jsonText doc)

/-- The document json.Marshal builds for a RepeatMessage. -/
def RepeatMessage.encode (env : Env) (msg : RepeatMessage) : JSON :=
  .obj [(str "DeliveryOptions", msg.DeliveryOptions.encode),
        (str "GdbRepeatMessageType", .num (intLit msg.GdbRepeatMessageType)),
        (str "IMEI", .str msg.IMEI),
        (str "TransmissionDelay", .num (intLit msg.TransmissionDelay)),
        (str "RepeatCount", .num (intLit msg.RepeatCount)),
        (str "RepeatInterval", .num (intLit msg.RepeatInterval)),
        (str "RicCode", .str msg.RicCode),
        (str "GroupCode", .str msg.GroupCode),
        (str "Payload", match msg.Payload with
                        | none => .null
                        | some bs => .str (env.base64 bs))]

/-- Go json.Marshal(msg) for a RepeatMessage. -/
def MarshalRepeatMessage (env : Env) (msg : RepeatMessage) : Except GoError GoString :=
  .ok (env.jsonText (msg.encode env))

/-! ## json.Unmarshal

The decoder reports a syntax error before it touches the destination. Otherwise it
writes into the destination as it goes: a value that does not fit its Go type
saves the first such error and decoding goes on; an error returned by an
UnmarshalJSON method stops decoding. Either way the destination keeps what was
written. Object keys match a field by its exact name, else by case folding; keys
that match no field are skipped. A slice element at an index the destination
already holds is decoded over the old element, a new one over the zero value; the
old backing-array elements that Go can expose again past a truncated length, when
an array-valued key is repeated, are not modelled. -/

/-- The state of a destination after decoding into it. -/
structure Decoded (α : Type) where
  /-- The destination afterwards. -/
  val : α
  /-- The first saved type error. -/
  saved : Option GoError
  /-- The error that stopped decoding. -/
  halt : Option GoError

/-- Decoding succeeded with destination a. -/
def Decoded.done {α : Type} (a : α) : Decoded α := ⟨a, none, none⟩

/-- The value v does not fit: the destination stays, a type error is saved. -/
def Decoded.mismatch {α : Type} (env : Env) (a : α) (v : JSON) (goType : GoString) :
    Decoded α :=
  ⟨a, some (env.typeError v goType), none⟩

/-- Store a decoded component back into the enclosing destination. -/
def Decoded.map {α β : Type} (f : α → β) (d : Decoded α) : Decoded β :=
  ⟨f d.val, d.saved, d.halt⟩

/-- The first of two saved errors. -/
def firstError (a b : Option GoError) : Option GoError :=
  match a with
  | some e => some e
  | none => b

/-- Continue decoding into the same destination unless decoding was stopped. -/
def Decoded.andThen {α : Type} (d : Decoded α) (f : α → Decoded α) : Decoded α :=
  match d.halt with
  | some _ => d
  | none =>
    let r := f d.val
    ⟨r.val, firstError d.saved r.saved, r.halt⟩

/-- The error json.Unmarshal returns: the stopping error, else the saved one. -/
def Decoded.err {α : Type} (d : Decoded α) : Option GoError :=
  firstError d.halt d.saved

/-- Decode into a Go int. -/
def decodeInt (env : Env) (cur : Int) (v : JSON) : Decoded Int :=
  match v with
  | .null => .done cur
  | .num n =>
    match parseInt n with
    | some i => .done i
    | none => .mismatch env cur v (str "int")
  | _ => .mismatch env cur v (str "int")

/-- Decode into a Go string. -/
def decodeString (env : Env) (cur : GoString) (v : JSON) : Decoded GoString :=
  match v with
  | .null => .done cur
  | .str s => .done s
  | _ => .mismatch env cur v (str "string")

/-- Decode into a Go float64. -/
def decodeFloat (env : Env) (cur : float64) (v : JSON) : Decoded float64 :=
  match v with
  | .null => .done cur
  | .num n =>
    match env.parseFloat n with
    | some f => .done f
    | none => .mismatch env cur v (str "float64")
  | _ => .mismatch env cur v (str "float64")

/-- Decode into a time.Time through its UnmarshalJSON method, which leaves null
alone; its failure stops decoding. -/
def decodeTime (env : Env) (cur : Time) (v : JSON) : Decoded Time :=
  match v with
  | .null => .done cur
  | _ =>
    match env.timeUnmarshalJSON v with
    | .ok t => .done t
    | .error err => ⟨env.timeAfterFailure cur v, none, some err⟩

/-- Decode the elements of an array over the elements old of the destination. -/
def decodeElems {α : Type} (elem : α → JSON → Decoded α) (zero : α) :
    List α → List JSON → Decoded (List α)
  | _, [] => .done []
  | old, x :: xs =>
    let d := elem (old.head?.getD zero) x
    match d.halt with
    | some err => ⟨d.val :: old.tail, d.saved, some err⟩
    | none =>
      let r := decodeElems elem zero old.tail xs
      ⟨d.val :: r.val, firstError d.saved r.saved, r.halt⟩

/-- Decode into a slice: null makes it nil, an array replaces its elements. -/
def decodeSlice {α : Type} (env : Env) (goType : GoString) (elem : α → JSON → Decoded α)
    (zero : α) (cur : Slice α) (v : JSON) : Decoded (Slice α) :=
  match v with
  | .null => .done none
  | .arr xs => (decodeElems elem zero (cur.getD []) xs).map some
  | _ => .mismatch env cur v goType

/-- Decode the members of an object, in document order, through the field setter. -/
def decodeMembers {α : Type} (set : α → GoString → JSON → Decoded α) :
    List (GoString × JSON) → α → Decoded α
  | [], a => .done a
  | (k, v) :: rest, a => (set a k v).andThen (decodeMembers set rest)

/-- Decode into a struct. -/
def decodeStruct {α : Type} (env : Env) (goType : GoString)
    (set : α → GoString → JSON → Decoded α) (cur : α) (v : JSON) : Decoded α :=
  match v with
  | .null => .done cur
  | .obj members => decodeMembers set members cur
  | _ => .mismatch env cur v goType

/-- The field an object key selects: the one with exactly that name, else the first
whose folded name equals the folded key. -/
def matchField {φ : Type} (env : Env) (name : φ → GoString) (all : List φ) (key : GoString) :
    Option φ :=
  match all.find? (fun f => name f = key) with
  | some f => some f
  | none => all.find? (fun f => env.foldName (name f) = env.foldName key)

/-- Decode a value into one field of a RepeatOptions. -/
def RepeatOptions.set (env : Env) (o : RepeatOptions) (f : RepeatOptionsField) (v : JSON) :
    Decoded RepeatOptions :=
  match f with
  | .Count => (decodeInt env o.Count v).map (fun x => { o with Count := x })
  | .Interval => (decodeInt env o.Interval v).map (fun x => { o with Interval := x })

/-- Decode an object member into a RepeatOptions. -/
def RepeatOptions.setKey (env : Env) (o : RepeatOptions) (key : GoString) (v : JSON) :
    Decoded RepeatOptions :=
  match matchField env RepeatOptionsField.name RepeatOptionsField.all key with
  | none => .done o
  | some f => o.set env f v

/-- Decode into a RepeatOptions. -/
def RepeatOptions.decode (env : Env) : RepeatOptions → JSON → Decoded RepeatOptions :=
  decodeStruct env (str "gdb.RepeatOptions") (RepeatOptions.setKey env)

/-- Decode into a slice of ints. -/
def decodeInts (env : Env) : Slice Int → JSON → Decoded (Slice Int) :=
  decodeSlice env (str "[]int") (decodeInt env) 0

/-- Decode a value into one field of a BroadcastCoverageArea. -/
def BroadcastCoverageArea.set (env : Env) (a : BroadcastCoverageArea)
    (f : CoverageAreaField) (v : JSON) : Decoded BroadcastCoverageArea :=
  match f with
  | .Code => (decodeString env a.Code v).map (fun x => { a with Code := x })
  | .Name => (decodeString env a.Name v).map (fun x => { a with Name := x })
  | .GdaCount => (decodeInt env a.GdaCount v).map (fun x => { a with GdaCount := x })
  | .Gdas => (decodeInts env a.Gdas v).map (fun x => { a with Gdas := x })

/-- Decode an object member into a BroadcastCoverageArea. -/
def BroadcastCoverageArea.setKey (env : Env) (a : BroadcastCoverageArea) (key : GoString)
    (v : JSON) : Decoded BroadcastCoverageArea :=
  match matchField env CoverageAreaField.name CoverageAreaField.all key with
  | none => .done a
  | some f => a.set env f v

/-- Decode into a BroadcastCoverageArea. -/
def BroadcastCoverageArea.decode (env : Env) :
    BroadcastCoverageArea → JSON → Decoded BroadcastCoverageArea :=
  decodeStruct env (str "gdb.BroadcastCoverageArea") (BroadcastCoverageArea.setKey env)

/-- Decode a value into one field of a DeliveryPoint. -/
def DeliveryPoint.set (env : Env) (p : DeliveryPoint) (f : DeliveryPointField) (v : JSON) :
    Decoded DeliveryPoint :=
  match f with
  | .Latitude => (decodeFloat env p.Latitude v).map (fun x => { p with Latitude := x })
  | .Longitude => (decodeFloat env p.Longitude v).map (fun x => { p with Longitude := x })
  | .Radius => (decodeInt env p.Radius v).map (fun x => { p with Radius := x })

/-- Decode an object member into a DeliveryPoint. -/
def DeliveryPoint.setKey (env : Env) (p : DeliveryPoint) (key : GoString) (v : JSON) :
    Decoded DeliveryPoint :=
  match matchField env DeliveryPointField.name DeliveryPointField.all key with
  | none => .done p
  | some f => p.set env f v

/-- Decode into a DeliveryPoint. -/
def DeliveryPoint.decode (env : Env) : DeliveryPoint → JSON → Decoded DeliveryPoint :=
  decodeStruct env (str "gdb.DeliveryPoint") (DeliveryPoint.setKey env)

/-- Decode a value into one JSON-visible field of a Message. -/
def Message.set (env : Env) (m : Gdb.Message) (f : MessageField) (v : JSON) :
    Decoded Gdb.Message :=
  match f with
  | .RepeatOptions =>
    (RepeatOptions.decode env m.RepeatOptions v).map (fun x => { m with RepeatOptions := x })
  | .DeliveryTime =>
    (decodeTime env m.DeliveryTime v).map (fun x => { m with DeliveryTime := x })
  | .ExpirationTime =>
    (decodeTime env m.ExpirationTime v).map (fun x => { m with ExpirationTime := x })
  | .BroadcastCoverageAreas =>
    (decodeSlice env (str "[]gdb.BroadcastCoverageArea") (BroadcastCoverageArea.decode env)
      BroadcastCoverageArea.zero m.BroadcastCoverageAreas v).map
      (fun x => { m with BroadcastCoverageAreas := x })
  | .GlobalDeliveryAreas =>
    (decodeInts env m.GlobalDeliveryAreas v).map (fun x => { m with GlobalDeliveryAreas := x })
  | .DeliveryPoints =>
    (decodeSlice env (str "[]gdb.DeliveryPoint") (DeliveryPoint.decode env)
      DeliveryPoint.zero m.DeliveryPoints v).map (fun x => { m with DeliveryPoints := x })

/-- Decode an object member into a Message. The keys Message, ServiceMask, IMEI and
SendDirect name no JSON-visible field. -/
def Message.setKey (env : Env) (m : Gdb.Message) (key : GoString) (v : JSON) :
    Decoded Gdb.Message :=
  match matchField env MessageField.name MessageField.all key with
  | none => .done m
  | some f => m.set env f v

/-- Decode into a Message. -/
def Message.decode (env : Env) : Gdb.Message → JSON → Decoded Gdb.Message :=
  decodeStruct env (str "gdb.Message") (Message.setKey env)

/-- Go json.Unmarshal(data, &m) for a Message m: the destination afterwards and the
error returned. -/
def UnmarshalMessage (env : Env) (data : GoString) (m : Gdb.Message) :
    Gdb.Message × Option GoError :=
  match env.jsonScan data with
  | .error err => (m, some err)
  | .ok doc =>
    let d := Message.decode env m doc
    (d.val, d.err)

/-- Decode a value into one field of a Lookup. -/
def Lookup.set (env : Env) (r : Lookup) (f : LookupField) (v : JSON) : Decoded Lookup :=
  match f with
  | .MessageID => (decodeInt env r.MessageID v).map (fun x => { r with MessageID := x })
  | .CreatedOn => (decodeTime env r.CreatedOn v).map (fun x => { r with CreatedOn := x })
  | .MessageText =>
    (decodeString env r.MessageText v).map (fun x => { r with MessageText := x })
  | .DeliveryStatus =>
    (decodeString env r.DeliveryStatus v).map (fun x => { r with DeliveryStatus := x })
  | .IridiumMessageID =>
    (decodeString env r.IridiumMessageID v).map (fun x => { r with IridiumMessageID := x })
  | .RepeatCount => (decodeInt env r.RepeatCount v).map (fun x => { r with RepeatCount := x })
  | .RepeatInterval =>
    (decodeInt env r.RepeatInterval v).map (fun x => { r with RepeatInterval := x })
  | .BroadcastCoverageAreaCodes =>
    (decodeString env r.BroadcastCoverageAreaCodes v).map
      (fun x => { r with BroadcastCoverageAreaCodes := x })
  | .Latitude => (decodeFloat env r.Latitude v).map (fun x => { r with Latitude := x })
  | .Longitude => (decodeFloat env r.Longitude v).map (fun x => { r with Longitude := x })
  | .Radius => (decodeInt env r.Radius v).map (fun x => { r with Radius := x })
  | .ServiceMask => (decodeInt env r.ServiceMask v).map (fun x => { r with ServiceMask := x })
  | .MessageCost => (decodeFloat env r.MessageCost v).map (fun x => { r with MessageCost := x })
  | .Sender => (decodeString env r.Sender v).map (fun x => { r with Sender := x })
  | .AccountID => (decodeInt env r.AccountID v).map (fun x => { r with AccountID := x })
  | .CustomerNumber =>
    (decodeInt env r.CustomerNumber v).map (fun x => { r with CustomerNumber := x })
  | .Services =>
    (decodeSlice env (str "[]string") (decodeString env) [] r.Services v).map
      (fun x => { r with Services := x })

/-- Decode an object member into a Lookup. -/
def Lookup.setKey (env : Env) (r : Lookup) (key : GoString) (v : JSON) : Decoded Lookup :=
  match matchField env LookupField.name LookupField.all key with
  | none => .done r
  | some f => r.set env f v

/-- Decode into a Lookup. -/
def Lookup.decode (env : Env) : Lookup → JSON → Decoded Lookup :=
  decodeStruct env (str "gdb.Lookup") (Lookup.setKey env)

/-- Go json.Unmarshal(data, &results) for results of type []Lookup: the destination
afterwards and the error returned. -/
def UnmarshalLookups (env : Env) (data : GoString) (results : Slice Lookup) :
    Slice Lookup × Option GoError :=
  match env.jsonScan data with
  | .error err => (results, some err)
  | .ok doc =>
    let d := decodeSlice env (str "[]gdb.Lookup") (Lookup.decode env) Lookup.zero results doc
    (d.val, d.err)

/-! ## The Messenger (messenger.go) -/

/-- Constant baseURI of messenger.go. -/
def baseURI : GoString := str "https://send.globaldataburst.com/api"

/-- A logrus.Logger handle; the client never uses it. -/
structure Logger where
  id : Nat
  deriving DecidableEq, Repr

/-- The messenger struct: the base resources needed to operate the API. -/
structure messenger where
  log : Logger
  client : Client
  apiKey : GoString
  deriving DecidableEq, Repr

/-- NewMessenger creates a new base messenger; its error is always nil. -/
def NewMessenger (apiKey : GoString) (log : Logger) : messenger × Option GoError :=
  ({ log := log, client := newClient, apiKey := apiKey }, none)

/-- What one call of an operation did: the requests it handed to http.Client.Do, in
order, and what it returned. -/
structure Outcome (ρ : Type) where
  issued : List Request
  ret : ρ

/-- The uri variable of Send after lines 47 to 62 of messenger.go. -/
def sendURI (msg : Gdb.Message) : GoString :=
  let uri := baseURI ++ str "/textmessages"
  let uri :=
    match msg.IMEI with
    | some imei => (uri ++ str "/") ++ imei
    | none => uri
  let uri := uri ++ str "?message="
  let uri := uri ++ msg.Message
  let uri :=
    match msg.ServiceMask with
    | some mask => (uri ++ str "&serviceMask=") ++ stringOfByte mask
    | none => uri
  let uri := uri ++ str "&sendDirect="
  uri ++ FormatBool msg.SendDirect

/-- Send a constructed message. -/
def messenger.Send (env : Env) (m : messenger) (msg : Gdb.Message) : Outcome (Option GoError) :=
  let uri := sendURI msg
  match MarshalMessage env msg with
  | .error err => ⟨[], some err⟩
  | .ok json =>
    match NewRequest env (str "POST") uri (some json) with
    | .error err => ⟨[], some err⟩
    | .ok req =>
      let req := { req with Header := req.Header.Add (str "X-GDB-APIKEY") m.apiKey }
      match env.Do m.client req with
      | .error err => ⟨[req], some err⟩
      | .ok resp =>
        if resp.StatusCode < 200 ∨ resp.StatusCode ≥ 300 then
          ⟨[req], some (errorsNew (str "Non-200 Response"))⟩
        else ⟨[req], none⟩

/-- Repeat sends a repeating message. -/
def messenger.Repeat (env : Env) (m : messenger) (msg : RepeatMessage) :
    Outcome (Option GoError) :=
  let uri := baseURI ++ str "/repeatmessages"
  match MarshalRepeatMessage env msg with
  | .error err => ⟨[], some err⟩
  | .ok json =>
    match NewRequest env (str "POST") uri (some json) with
    | .error err => ⟨[], some err⟩
    | .ok req =>
      let req := { req with Header := req.Header.Add (str "X-GDB-APIKEY") m.apiKey }
      match env.Do m.client req with
      | .error err => ⟨[req], some err⟩
      | .ok resp =>
        if resp.StatusCode < 200 ∨ resp.StatusCode ≥ 300 then
          ⟨[req], some (errorsNew (str "Non-200 Response"))⟩
        else ⟨[req], none⟩

/-- Live returns an error if the service is down. -/
def messenger.Live (env : Env) (m : messenger) : Outcome (Option GoError) :=
  let uri := baseURI ++ str "/BurstVpnStatus"
  match NewRequest env (str "GET") uri none with
  | .error err => ⟨[], some err⟩
  | .ok req =>
    let req := { req with Header := req.Header.Add (str "X-GDB-APIKEY") m.apiKey }
    match env.Do m.client req with
    | .error err => ⟨[req], some err⟩
    | .ok resp =>
      if resp.StatusCode < 200 ∨ resp.StatusCode ≥ 300 then
        ⟨[req], some (errorsNew (str "Non-200 Response"))⟩
      else ⟨[req], none⟩

/-- The uri variable of Lookup after lines 132 to 138 of messenger.go. -/
def lookupURI (startDate endDate : Time) : GoString :=
  let uri := baseURI ++ str "/textmessages"
  let uri := uri ++ str "?startDate="
  let uri := uri ++ startDate.FormatRFC3339
  let uri := uri ++ str "&endDate="
  uri ++ endDate.FormatRFC3339

/-- Lookup returns message lookup items between two dates. -/
def messenger.Lookup (env : Env) (m : messenger) (startDate endDate : Time) :
    Outcome (Slice Gdb.Lookup × Option GoError) :=
  let uri := lookupURI startDate endDate
  match NewRequest env (str "GET") uri none with
  | .error err => ⟨[], (none, some err)⟩
  | .ok req =>
    let req := { req with Header := req.Header.Add (str "X-GDB-APIKEY") m.apiKey }
    match env.Do m.client req with
    | .error err => ⟨[req], (none, some err)⟩
    | .ok resp =>
      if resp.StatusCode < 200 ∨ resp.StatusCode ≥ 300 then
        ⟨[req], (none, some (errorsNew (str "Non-200 Response")))⟩
      else
        match resp.Body with
        | .error err => ⟨[req], (none, some err)⟩
        | .ok body =>
          let results : Slice Gdb.Lookup := none
          match UnmarshalLookups env body results with
          | (_, some err) => ⟨[req], (none, some err)⟩
          | (results, none) => ⟨[req], (results, none)⟩

/-! ## Lookup records as the specification reads them

A well-formed lookup-record object is a JSON object with no key twice, in which the
value under the name of a Lookup field has the JSON shape of the field: an integer
literal that fits an int, a string, a number that strconv.ParseFloat accepts, a
timestamp that Time.UnmarshalJSON accepts, an array of strings. A value may also be
null, which stands for no value. Any other key must select no field, also not by
case folding. The record of such an object has each field equal to the value under
the field's key, and the zero value where the key is absent. -/

/-- The JSON shapes of the Lookup fields. -/
inductive Shape where
  | int | string | float | time | strings
  deriving DecidableEq, Repr

/-- The shape of each Lookup field, from its Go type. -/
def LookupField.shape : LookupField → Shape
  | .MessageID => .int
  | .CreatedOn => .time
  | .MessageText => .string
  | .DeliveryStatus => .string
  | .IridiumMessageID => .string
  | .RepeatCount => .int
  | .RepeatInterval => .int
  | .BroadcastCoverageAreaCodes => .string
  | .Latitude => .float
  | .Longitude => .float
  | .Radius => .int
  | .ServiceMask => .int
  | .MessageCost => .float
  | .Sender => .string
  | .AccountID => .int
  | .CustomerNumber => .int
  | .Services => .strings

/-- Whether a JSON value is a string. -/
def JSON.isStr : JSON → Bool
  | .str _ => true
  | _ => false

/-- Whether a JSON value has the given shape. -/
def fits (env : Env) : Shape → JSON → Bool
  | _, .null => true
  | .int, .num n => (parseInt n).isSome
  | .string, .str _ => true
  | .float, .num n => (env.parseFloat n).isSome
  | .time, v =>
    match env.timeUnmarshalJSON v with
    | .ok _ => true
    | .error _ => false
  | .strings, .arr xs => xs.all JSON.isStr
  | _, _ => false

/-- Whether a member of an object is a Lookup field with a value of its shape, or has a
key that selects no Lookup field at all. -/
def memberFits (env : Env) (kv : GoString × JSON) : Bool :=
  LookupField.all.any (fun f => f.name = kv.1 && fits env f.shape kv.2)
    || (matchField env LookupField.name LookupField.all kv.1).isNone

/-- Whether a JSON value is a well-formed lookup-record object. -/
def WellFormedRecord (env : Env) : JSON → Bool
  | .obj members => decide (members.map Prod.fst).Nodup && members.all (memberFits env)
  | _ => false

/-- The integer under a key, else d. -/
def readInt (d : Int) : Option JSON → Int
  | some (.num n) => (parseInt n).getD d
  | _ => d

/-- The string under a key, else d. -/
def readString (d : GoString) : Option JSON → GoString
  | some (.str s) => s
  | _ => d

/-- The float64 under a key, else d. -/
def readFloat (env : Env) (d : float64) : Option JSON → float64
  | some (.num n) => (env.parseFloat n).getD d
  | _ => d

/-- The timestamp under a key, else d. -/
def readTime (env : Env) (d : Time) : Option JSON → Time
  | none => d
  | some .null => d
  | some v =>
    match env.timeUnmarshalJSON v with
    | .ok t => t
    | .error _ => d

/-- The string of a JSON string. -/
def JSON.strVal : JSON → GoString
  | .str s => s
  | _ => []

/-- The strings under a key, nil for null, else d. -/
def readStrings (d : Slice GoString) : Option JSON → Slice GoString
  | some (.arr xs) => some (xs.map JSON.strVal)
  | some .null => none
  | _ => d

/-- The record r with every field that has a member in the object replaced by the
value of that member. -/
def Lookup.over (env : Env) (r : Lookup) (members : List (GoString × JSON)) : Lookup :=
  { MessageID := readInt r.MessageID (members.lookup LookupField.MessageID.name)
    CreatedOn := readTime env r.CreatedOn (members.lookup LookupField.CreatedOn.name)
    MessageText := readString r.MessageText (members.lookup LookupField.MessageText.name)
    DeliveryStatus :=
      readString r.DeliveryStatus (members.lookup LookupField.DeliveryStatus.name)
    IridiumMessageID :=
      readString r.IridiumMessageID (members.lookup LookupField.IridiumMessageID.name)
    RepeatCount := readInt r.RepeatCount (members.lookup LookupField.RepeatCount.name)
    RepeatInterval := readInt r.RepeatInterval (members.lookup LookupField.RepeatInterval.name)
    BroadcastCoverageAreaCodes :=
      readString r.BroadcastCoverageAreaCodes
        (members.lookup LookupField.BroadcastCoverageAreaCodes.name)
    Latitude := readFloat env r.Latitude (members.lookup LookupField.Latitude.name)
    Longitude := readFloat env r.Longitude (members.lookup LookupField.Longitude.name)
    Radius := readInt r.Radius (members.lookup LookupField.Radius.name)
    ServiceMask := readInt r.ServiceMask (members.lookup LookupField.ServiceMask.name)
    MessageCost := readFloat env r.MessageCost (members.lookup LookupField.MessageCost.name)
    Sender := readString r.Sender (members.lookup LookupField.Sender.name)
    AccountID := readInt r.AccountID (members.lookup LookupField.AccountID.name)
    CustomerNumber := readInt r.CustomerNumber (members.lookup LookupField.CustomerNumber.name)
    Services := readStrings r.Services (members.lookup LookupField.Services.name) }

/-- The record of a lookup-record object: each field is the value under its key, the
zero value where the key is absent. -/
def recordOf (env : Env) : JSON → Lookup
  | .obj members => Lookup.zero.over env members
  | _ => Lookup.zero

/-! ## Bodies that json.Unmarshal rejects

A body is rejected when it is malformed JSON, when its document is neither an array nor
null, or when the array holds an element that is neither an object nor null, or an
object that has, under a key selecting a Lookup field, a value that is not null and
does not fit the field's Go type. The document null and null array elements are not
rejected. -/

/-- Whether decoding into a destination produced an error. -/
def Decoded.failed {α : Type} (d : Decoded α) : Bool := d.err.isSome

/-- Whether a JSON value is null. -/
def JSON.isNull : JSON → Bool
  | .null => true
  | _ => false

/-- Whether a JSON value is neither null nor of the given shape. -/
def illTyped (env : Env) : Shape → JSON → Bool
  | _, .null => false
  | .int, .num n => (parseInt n).isNone
  | .string, .str _ => false
  | .float, .num n => (env.parseFloat n).isNone
  | .time, v =>
    match env.timeUnmarshalJSON v with
    | .ok _ => false
    | .error _ => true
  | .strings, .arr xs => xs.any (fun x => !(x.isStr || x.isNull))
  | _, _ => true

/-- Whether a member of an object selects a Lookup field and holds an ill-typed value. -/
def memberIll (env : Env) (kv : GoString × JSON) : Bool :=
  match matchField env LookupField.name LookupField.all kv.1 with
  | some f => illTyped env f.shape kv.2
  | none => false

/-- Whether an array element is no lookup record: neither an object nor null, or an
object with an ill-typed member. -/
def illFormedRecord (env : Env) : JSON → Bool
  | .null => false
  | .obj members => members.any (memberIll env)
  | _ => true

/-- Whether a response body is rejected. -/
def rejected (env : Env) (body : GoString) : Bool :=
  match env.jsonScan body with
  | .error _ => true
  | .ok .null => false
  | .ok (.arr objs) => objs.any (illFormedRecord env)
  | .ok _ => true

/-! ## Valid messages

The values of a Message that JSON can carry: ints within 64 bits, timestamps and
floats that their own text forms give back, and a document that the scanner reads
back from the encoder's text. -/

/-- A Go int: within 64 bits. -/
def intFits (i : Int) : Prop := -(2 : Int) ^ 63 ≤ i ∧ i < (2 : Int) ^ 63

/-- The timestamp marshals to a JSON string that unmarshals to it. -/
def timeRoundTrips (env : Env) (t : Time) : Prop :=
  ∃ s, env.timeMarshalJSON t = .ok (.str s) ∧ env.timeUnmarshalJSON (.str s) = .ok t

/-- The float64 formats to a literal that parses to it. -/
def floatRoundTrips (env : Env) (f : float64) : Prop :=
  ∃ n, env.formatFloat f = .ok n ∧ env.parseFloat n = some f

/-- A valid Message. -/
def Message.Valid (env : Env) (msg : Gdb.Message) : Prop :=
  intFits msg.RepeatOptions.Count ∧ intFits msg.RepeatOptions.Interval
  ∧ timeRoundTrips env msg.DeliveryTime ∧ timeRoundTrips env msg.ExpirationTime
  ∧ (∀ a ∈ msg.BroadcastCoverageAreas.getD [],
      intFits a.GdaCount ∧ ∀ g ∈ a.Gdas.getD [], intFits g)
  ∧ (∀ g ∈ msg.GlobalDeliveryAreas.getD [], intFits g)
  ∧ (∀ p ∈ msg.DeliveryPoints.getD [],
      floatRoundTrips env p.Latitude ∧ floatRoundTrips env p.Longitude ∧ intFits p.Radius)
  ∧ (∀ doc, Message.encode env msg = .ok doc → env.jsonScan (env.jsonText doc) = .ok doc)

/-- The message with the four fields tagged json:"-" set to their zero values. -/
def Message.jsonPart (msg : Gdb.Message) : Gdb.Message :=
  { msg with Message := [], ServiceMask := none, IMEI := none, SendDirect := false }

/-! ## A test double -/

/-- A test double for the environment, in the manner of an httptest server: every
URL parses, the transport answers every request with the given status and body,
and the JSON scanner reads the given document from every text. -/
def mockEnv (status : Int) (body : GoString) (doc : Except GoError JSON) : Env :=
  { parseURL := fun _ => none
    Do := fun _ _ => .ok ⟨status, .ok body⟩
    jsonText := fun _ => []
    jsonScan := fun _ => doc
    formatFloat := fun f => .ok ⟨false, f.bits, none, none⟩
    parseFloat := fun n => some ⟨n.int⟩
    timeMarshalJSON := fun t => .ok (.str t.FormatRFC3339)
    timeUnmarshalJSON := fun v =>
      match v with
      | .str s => if s = Time.zero.FormatRFC3339 then .ok Time.zero else .error ⟨s⟩
      | _ => .error ⟨[]⟩
    timeAfterFailure := fun _ _ => Time.zero
    base64 := fun bs => bs
    foldName := fun s => s
    typeError := fun _ goType => ⟨goType⟩ }

/-- The message of the end-to-end scenario: text hello, direct send, nothing else set. -/
def helloMessage : Gdb.Message := { Message.zero with Message := str "hello", SendDirect := true }

/-- The client of the end-to-end scenario, constructed with API key test-key. -/
def testMessenger : messenger := (NewMessenger (str "test-key") ⟨0⟩).1

/-- The request Send issues for helloMessage through testMessenger in the test double. -/
def helloRequest : Request :=
  { Method := str "POST"
    URL := str "https://send.globaldataburst.com/api/textmessages?message=hello&sendDirect=true"
    Header := [(str "X-Gdb-Apikey", [str "test-key"])]
    Body := some [] }

/-- A repeating text message for the test double. -/
def sampleRepeat : RepeatMessage :=
  { DeliveryOptions := ⟨2, 30⟩
    GdbRepeatMessageType := 1
    IMEI := str "300234010753370"
    TransmissionDelay := 0
    RepeatCount := 2
    RepeatInterval := 30
    RicCode := []
    GroupCode := []
    Payload := some [104, 105] }

/-- The request Lookup issues through testMessenger for the given dates. -/
def lookupRequest (startDate endDate : Time) : Request :=
  { Method := str "GET"
    URL := lookupURI startDate endDate
    Header := [(str "X-Gdb-Apikey", [str "test-key"])]
    Body := none }

/-- A response document of two lookup records: one with MessageID 42 only, one with a
text, a creation time, a cost, a service list and a key of no field, but no
DeliveryStatus. -/
def twoRecords : List JSON :=
  [.obj [(str "MessageID", .num ⟨false, 42, none, none⟩)],
   .obj [(str "MessageText", .str (str "hi")),
         (str "CreatedOn", .str (str "0001-01-01T00:00:00Z")),
         (str "MessageCost", .num ⟨false, 7, none, none⟩),
         (str "Services", .arr [.str (str "burst")]),
         (str "Unknown", .bool true),
         (str "MessageID", .num ⟨false, 43, none, none⟩)]]

/-- A response document whose one record holds a string under MessageID. -/
def illTypedRecords : List JSON :=
  [.obj [(str "MessageID", .str (str "forty-two"))]]

/-- A response document whose second element is no object. -/
def brokenRecords : List JSON :=
  [.obj [(str "MessageID", .num ⟨false, 42, none, none⟩)], .str (str "oops")]

/-- A message with every JSON-visible kind of field set: the hello message sent to one
coverage area, an empty list of delivery areas and one delivery point. -/
def sampleMessage : Gdb.Message :=
  { helloMessage with
      RepeatOptions := ⟨3, 60⟩
      BroadcastCoverageAreas := some [⟨str "EU", str "Europe", 2, some [1, -2]⟩]
      GlobalDeliveryAreas := some []
      DeliveryPoints := some [⟨⟨5⟩, ⟨6⟩, 10⟩] }

/-- The test double whose scanner reads back the document of sampleMessage. -/
def sampleEnv : Env :=
  mockEnv 200 [] (Message.encode (mockEnv 200 [] (.ok .null)) sampleMessage)

end Gdb

namespace Gdb

/-! # Theorems -/

/-! ## Request construction -/

theorem textmessages_endpoint :
    baseURI ++ str "/textmessages" = str "https://send.globaldataburst.com/api/textmessages" := by
  decide

theorem send_issued (env : Env) (m : messenger) (msg : Gdb.Message) (req : Request)
    (h : req ∈ (m.Send env msg).issued) :
    ∃ json, MarshalMessage env msg = .ok json ∧ env.parseURL (sendURI msg) = none ∧
      req = ⟨str "POST", sendURI msg, Header.Add [] (str "X-GDB-APIKEY") m.apiKey, some json⟩ := by
  unfold messenger.Send NewRequest at h
  cases hm : MarshalMessage env msg <;> simp only [hm] at h
  · simp at h
  · cases hp : env.parseURL (sendURI msg) <;> simp only [hp] at h
    · refine ⟨_, rfl, rfl, ?_⟩
      split at h <;> [skip; split at h] <;> simpa using h
    · simp at h

theorem repeat_issued (env : Env) (m : messenger) (msg : RepeatMessage) (req : Request)
    (h : req ∈ (m.Repeat env msg).issued) :
    env.parseURL (baseURI ++ str "/repeatmessages") = none ∧
      req = ⟨str "POST", baseURI ++ str "/repeatmessages",
             Header.Add [] (str "X-GDB-APIKEY") m.apiKey,
             some (env.jsonText (msg.encode env))⟩ := by
  unfold messenger.Repeat NewRequest MarshalRepeatMessage at h
  simp only at h
  cases hp : env.parseURL (baseURI ++ str "/repeatmessages") <;> simp only [hp] at h
  · refine ⟨rfl, ?_⟩
    split at h <;> [skip; split at h] <;> simpa using h
  · simp at h

theorem live_issued (env : Env) (m : messenger) (req : Request)
    (h : req ∈ (m.Live env).issued) :
    env.parseURL (baseURI ++ str "/BurstVpnStatus") = none ∧
      req = ⟨str "GET", baseURI ++ str "/BurstVpnStatus",
             Header.Add [] (str "X-GDB-APIKEY") m.apiKey, none⟩ := by
  unfold messenger.Live NewRequest at h
  simp only at h
  cases hp : env.parseURL (baseURI ++ str "/BurstVpnStatus") <;> simp only [hp] at h
  · refine ⟨rfl, ?_⟩
    split at h <;> [skip; split at h] <;> simpa using h
  · simp at h

theorem sendURI_eq (msg : Gdb.Message) :
    sendURI msg =
        str "https://send.globaldataburst.com/api/textmessages"
        ++ (match msg.IMEI with
            | some imei => str "/" ++ imei
            | none => [])
        ++ (str "?message=" ++ msg.Message)
        ++ (match msg.ServiceMask with
            | some mask => str "&serviceMask=" ++ stringOfByte mask
            | none => [])
        ++ (str "&sendDirect=" ++ FormatBool msg.SendDirect) := by
  unfold sendURI
  rw [textmessages_endpoint]
  cases msg.IMEI <;> cases msg.ServiceMask <;> simp [List.append_assoc]

theorem lookup_issued (env : Env) (m : messenger) (s e : Time) (req : Request)
    (h : req ∈ (m.Lookup env s e).issued) :
    env.parseURL (lookupURI s e) = none ∧
      req = ⟨str "GET", lookupURI s e, Header.Add [] (str "X-GDB-APIKEY") m.apiKey, none⟩ := by
  unfold messenger.Lookup NewRequest at h
  simp only at h
  cases hp : env.parseURL (lookupURI s e) <;> simp only [hp] at h
  · refine ⟨rfl, ?_⟩
    repeat' split at h
    all_goals simpa using h
  · simp at h

theorem send_issues (env : Env) (m : messenger) (msg : Gdb.Message) (json : GoString)
    (hm : MarshalMessage env msg = .ok json) (hp : env.parseURL (sendURI msg) = none) :
    (m.Send env msg).issued =
      [⟨str "POST", sendURI msg, Header.Add [] (str "X-GDB-APIKEY") m.apiKey, some json⟩] := by
  unfold messenger.Send NewRequest
  simp only [hm, hp]
  split <;> [rfl; (split <;> rfl)]

theorem repeat_issues (env : Env) (m : messenger) (msg : RepeatMessage)
    (hp : env.parseURL (baseURI ++ str "/repeatmessages") = none) :
    (m.Repeat env msg).issued =
      [⟨str "POST", baseURI ++ str "/repeatmessages",
        Header.Add [] (str "X-GDB-APIKEY") m.apiKey, some (env.jsonText (msg.encode env))⟩] := by
  unfold messenger.Repeat NewRequest MarshalRepeatMessage
  simp only [hp]
  split <;> [rfl; (split <;> rfl)]

theorem live_issues (env : Env) (m : messenger)
    (hp : env.parseURL (baseURI ++ str "/BurstVpnStatus") = none) :
    (m.Live env).issued =
      [⟨str "GET", baseURI ++ str "/BurstVpnStatus",
        Header.Add [] (str "X-GDB-APIKEY") m.apiKey, none⟩] := by
  unfold messenger.Live NewRequest
  simp only [hp]
  split <;> [rfl; (split <;> rfl)]

theorem lookup_issues (env : Env) (m : messenger) (s e : Time)
    (hp : env.parseURL (lookupURI s e) = none) :
    (m.Lookup env s e).issued =
      [⟨str "GET", lookupURI s e, Header.Add [] (str "X-GDB-APIKEY") m.apiKey, none⟩] := by
  unfold messenger.Lookup NewRequest
  simp only [hp]
  repeat' split
  all_goals rfl

theorem header_values_add (key k : GoString) : Header.Values (Header.Add [] key k) key = [k] := by
  simp [Header.Values, Header.Add, List.lookup]

/-- C1: the URI Send builds is the textmessages endpoint, then "/" and the IMEI when set,
then "?message=" and the raw message text, then "&serviceMask=" and the mask text when
the mask is set, then "&sendDirect=" and true or false; every request Send issues is for
that URI; and for the message hello with SendDirect set and neither IMEI nor mask the
query string is message=hello&sendDirect=true. -/
theorem C1_send_uri (msg : Gdb.Message) :
    sendURI msg =
        str "https://send.globaldataburst.com/api/textmessages"
        ++ (match msg.IMEI with
            | some imei => str "/" ++ imei
            | none => [])
        ++ (str "?message=" ++ msg.Message)
        ++ (match msg.ServiceMask with
            | some mask => str "&serviceMask=" ++ stringOfByte mask
            | none => [])
        ++ (str "&sendDirect=" ++ (if msg.SendDirect then str "true" else str "false"))
    ∧ (∀ (env : Env) (m : messenger), ∀ req ∈ (m.Send env msg).issued, req.URL = sendURI msg)
    ∧ (∀ (o : RepeatOptions) (t u : Time) (a : Slice BroadcastCoverageArea) (g : Slice Int)
        (d : Slice DeliveryPoint),
        sendURI ⟨str "hello", none, none, true, o, t, u, a, g, d⟩ =
          str "https://send.globaldataburst.com/api/textmessages" ++ str "?"
            ++ str "message=hello&sendDirect=true") := by
  refine ⟨?_, fun env m req h => ?_, ?_⟩
  · rw [sendURI_eq]
    rfl
  · obtain ⟨json, -, -, rfl⟩ := send_issued env m msg req h
    rfl
  · intro o t u a g d
    rfl

/-! ## Status interpretation -/

theorem send_ret_of_response (env : Env) (m : messenger) (msg : Gdb.Message) (req : Request)
    (resp : Response) (h : req ∈ (m.Send env msg).issued) (hdo : env.Do m.client req = .ok resp) :
    (m.Send env msg).ret =
      if resp.StatusCode < 200 ∨ resp.StatusCode ≥ 300 then
        some (errorsNew (str "Non-200 Response"))
      else none := by
  obtain ⟨json, hm, hp, rfl⟩ := send_issued env m msg _ h
  unfold messenger.Send NewRequest
  simp only [hm, hp, hdo]
  split <;> rfl

theorem repeat_ret_of_response (env : Env) (m : messenger) (msg : RepeatMessage) (req : Request)
    (resp : Response) (h : req ∈ (m.Repeat env msg).issued)
    (hdo : env.Do m.client req = .ok resp) :
    (m.Repeat env msg).ret =
      if resp.StatusCode < 200 ∨ resp.StatusCode ≥ 300 then
        some (errorsNew (str "Non-200 Response"))
      else none := by
  obtain ⟨hp, rfl⟩ := repeat_issued env m msg _ h
  unfold messenger.Repeat NewRequest MarshalRepeatMessage
  simp only [hp, hdo]
  split <;> rfl

theorem live_ret_of_response (env : Env) (m : messenger) (req : Request)
    (resp : Response) (h : req ∈ (m.Live env).issued) (hdo : env.Do m.client req = .ok resp) :
    (m.Live env).ret =
      if resp.StatusCode < 200 ∨ resp.StatusCode ≥ 300 then
        some (errorsNew (str "Non-200 Response"))
      else none := by
  obtain ⟨hp, rfl⟩ := live_issued env m _ h
  unfold messenger.Live NewRequest
  simp only [hp, hdo]
  split <;> rfl

theorem status_rule (c : Int) (e : GoError) :
    (if c < 200 ∨ c ≥ 300 then some e else none) = none ↔ 200 ≤ c ∧ c < 300 := by
  by_cases h : c < 200 ∨ c ≥ 300
  · simp only [h, if_true]
    constructor
    · intro h'
      cases h'
    · intro h'
      omega
  · simp only [h, if_false, true_iff]
    omega

/-- C2: for Send, Repeat and Live alike: once the URL parses (and, for Send, the message
marshals) the operation hands its one request to the transport, and whenever the transport
answers that request with a response (any status code, any body), the operation returns a
nil error exactly when 200 <= status < 300. -/
theorem C2_success_iff_2xx (env : Env) (m : messenger) (msg : Gdb.Message)
    (rmsg : RepeatMessage) (resp : Response) :
    (∀ json, MarshalMessage env msg = .ok json → env.parseURL (sendURI msg) = none →
        env.Do m.client
          ⟨str "POST", sendURI msg, Header.Add [] (str "X-GDB-APIKEY") m.apiKey, some json⟩
          = .ok resp →
        (m.Send env msg).issued =
          [⟨str "POST", sendURI msg, Header.Add [] (str "X-GDB-APIKEY") m.apiKey, some json⟩]
        ∧ ((m.Send env msg).ret = none ↔ 200 ≤ resp.StatusCode ∧ resp.StatusCode < 300))
    ∧ (env.parseURL (baseURI ++ str "/repeatmessages") = none →
        env.Do m.client
          ⟨str "POST", baseURI ++ str "/repeatmessages",
            Header.Add [] (str "X-GDB-APIKEY") m.apiKey, some (env.jsonText (rmsg.encode env))⟩
          = .ok resp →
        (m.Repeat env rmsg).issued =
          [⟨str "POST", baseURI ++ str "/repeatmessages",
            Header.Add [] (str "X-GDB-APIKEY") m.apiKey, some (env.jsonText (rmsg.encode env))⟩]
        ∧ ((m.Repeat env rmsg).ret = none ↔ 200 ≤ resp.StatusCode ∧ resp.StatusCode < 300))
    ∧ (env.parseURL (baseURI ++ str "/BurstVpnStatus") = none →
        env.Do m.client
          ⟨str "GET", baseURI ++ str "/BurstVpnStatus",
            Header.Add [] (str "X-GDB-APIKEY") m.apiKey, none⟩
          = .ok resp →
        (m.Live env).issued =
          [⟨str "GET", baseURI ++ str "/BurstVpnStatus",
            Header.Add [] (str "X-GDB-APIKEY") m.apiKey, none⟩]
        ∧ ((m.Live env).ret = none ↔ 200 ≤ resp.StatusCode ∧ resp.StatusCode < 300))
    ∧ (∀ req ∈ (m.Send env msg).issued, env.Do m.client req = .ok resp →
        ((m.Send env msg).ret = none ↔ 200 ≤ resp.StatusCode ∧ resp.StatusCode < 300))
    ∧ (∀ req ∈ (m.Repeat env rmsg).issued, env.Do m.client req = .ok resp →
        ((m.Repeat env rmsg).ret = none ↔ 200 ≤ resp.StatusCode ∧ resp.StatusCode < 300))
    ∧ (∀ req ∈ (m.Live env).issued, env.Do m.client req = .ok resp →
        ((m.Live env).ret = none ↔ 200 ≤ resp.StatusCode ∧ resp.StatusCode < 300)) := by
  refine ⟨fun json hm hp hdo => ?_, fun hp hdo => ?_, fun hp hdo => ?_,
    fun req h hdo => ?_, fun req h hdo => ?_, fun req h hdo => ?_⟩
  · have hi := send_issues env m msg json hm hp
    refine ⟨hi, ?_⟩
    rw [send_ret_of_response env m msg _ resp (hi ▸ List.mem_singleton.2 rfl) hdo]
    exact status_rule _ _
  · have hi := repeat_issues env m rmsg hp
    refine ⟨hi, ?_⟩
    rw [repeat_ret_of_response env m rmsg _ resp (hi ▸ List.mem_singleton.2 rfl) hdo]
    exact status_rule _ _
  · have hi := live_issues env m hp
    refine ⟨hi, ?_⟩
    rw [live_ret_of_response env m _ resp (hi ▸ List.mem_singleton.2 rfl) hdo]
    exact status_rule _ _
  · rw [send_ret_of_response env m msg req resp h hdo]
    exact status_rule _ _
  · rw [repeat_ret_of_response env m rmsg req resp h hdo]
    exact status_rule _ _
  · rw [live_ret_of_response env m req resp h hdo]
    exact status_rule _ _

theorem hello_issued (c : Int) (b : GoString) (d : Except GoError JSON) :
    helloRequest ∈ (testMessenger.Send (mockEnv c b d) helloMessage).issued := by
  have h : (testMessenger.Send (mockEnv c b d) helloMessage).issued = [helloRequest] := by
    have hm : MarshalMessage (mockEnv c b d) helloMessage = .ok [] := rfl
    unfold messenger.Send NewRequest
    rw [hm]
    simp only [mockEnv]
    split <;> rfl
  rw [h]
  exact List.mem_singleton.2 rfl

/-- Witness for C2: against a mock transport each of Send, Repeat and Live hands over one
request, fails for the statuses 401, 404, 429, 500 and 503 and succeeds for 200 and 299,
whatever the body. -/
theorem C2_success_iff_2xx_witness :
    (∀ c ∈ [(401 : Int), 404, 429, 500, 503], ∀ b : GoString,
        ((testMessenger.Send (mockEnv c b (.ok .null)) helloMessage).issued.length = 1
          ∧ (testMessenger.Send (mockEnv c b (.ok .null)) helloMessage).ret ≠ none)
        ∧ ((testMessenger.Repeat (mockEnv c b (.ok .null)) sampleRepeat).issued.length = 1
          ∧ (testMessenger.Repeat (mockEnv c b (.ok .null)) sampleRepeat).ret ≠ none)
        ∧ ((testMessenger.Live (mockEnv c b (.ok .null))).issued.length = 1
          ∧ (testMessenger.Live (mockEnv c b (.ok .null))).ret ≠ none))
    ∧ (∀ c ∈ [(200 : Int), 299], ∀ b : GoString,
        ((testMessenger.Send (mockEnv c b (.ok .null)) helloMessage).issued.length = 1
          ∧ (testMessenger.Send (mockEnv c b (.ok .null)) helloMessage).ret = none)
        ∧ ((testMessenger.Repeat (mockEnv c b (.ok .null)) sampleRepeat).issued.length = 1
          ∧ (testMessenger.Repeat (mockEnv c b (.ok .null)) sampleRepeat).ret = none)
        ∧ ((testMessenger.Live (mockEnv c b (.ok .null))).issued.length = 1
          ∧ (testMessenger.Live (mockEnv c b (.ok .null))).ret = none)) := by
  constructor
  · intro c hc b
    have hT := C2_success_iff_2xx (mockEnv c b (.ok .null)) testMessenger helloMessage
      sampleRepeat ⟨c, .ok b⟩
    have hS := hT.1 [] rfl rfl rfl
    have hR := hT.2.1 rfl rfl
    have hL := hT.2.2.1 rfl rfl
    simp only [List.mem_cons, List.mem_singleton, List.not_mem_nil, or_false] at hc
    refine ⟨⟨by rw [hS.1]; rfl, fun hn => ?_⟩, ⟨by rw [hR.1]; rfl, fun hn => ?_⟩,
      ⟨by rw [hL.1]; rfl, fun hn => ?_⟩⟩
    · have h2 := hS.2.1 hn
      dsimp only at h2
      omega
    · have h2 := hR.2.1 hn
      dsimp only at h2
      omega
    · have h2 := hL.2.1 hn
      dsimp only at h2
      omega
  · intro c hc b
    have hT := C2_success_iff_2xx (mockEnv c b (.ok .null)) testMessenger helloMessage
      sampleRepeat ⟨c, .ok b⟩
    have hS := hT.1 [] rfl rfl rfl
    have hR := hT.2.1 rfl rfl
    have hL := hT.2.2.1 rfl rfl
    simp only [List.mem_cons, List.mem_singleton, List.not_mem_nil, or_false] at hc
    have h2 : 200 ≤ (⟨c, .ok b⟩ : Response).StatusCode
        ∧ (⟨c, .ok b⟩ : Response).StatusCode < 300 := by
      dsimp only
      omega
    exact ⟨⟨by rw [hS.1]; rfl, hS.2.2 h2⟩, ⟨by rw [hR.1]; rfl, hR.2.2 h2⟩,
      ⟨by rw [hL.1]; rfl, hL.2.2 h2⟩⟩

/-- C8 fails as stated: for status 500 the error Send returns has the message
Non-200 Response, which is not the text non-success response. -/
theorem C8_counterexample :
    ∃ e, (testMessenger.Send (mockEnv 500 [] (.ok .null)) helloMessage).ret = some e
      ∧ e.msg = str "Non-200 Response" ∧ e.msg ≠ str "non-success response" :=
  ⟨errorsNew (str "Non-200 Response"), rfl, rfl, by decide⟩

/-- C8 as amended: for every response with a status outside [200,300), the error Send
returns is the generic error whose message is exactly Non-200 Response. -/
theorem C8_non_success_error (env : Env) (m : messenger) (msg : Gdb.Message) (req : Request)
    (resp : Response) (h : req ∈ (m.Send env msg).issued)
    (hdo : env.Do m.client req = .ok resp)
    (hs : resp.StatusCode < 200 ∨ resp.StatusCode ≥ 300) :
    ∃ e, (m.Send env msg).ret = some e ∧ e.msg = str "Non-200 Response" := by
  rw [send_ret_of_response env m msg req resp h hdo, if_pos hs]
  exact ⟨_, rfl, rfl⟩

/-- Witness for C8 as amended, at status 503 of the mock transport. -/
theorem C8_non_success_error_witness :
    ∃ e, (testMessenger.Send (mockEnv 503 (str "busy") (.ok .null)) helloMessage).ret = some e
      ∧ e.msg = str "Non-200 Response" :=
  C8_non_success_error (mockEnv 503 (str "busy") (.ok .null)) testMessenger helloMessage
    helloRequest ⟨503, .ok (str "busy")⟩ (hello_issued _ _ _) rfl (by decide)

/-! ## Authentication header and methods -/

/-- C7: through a messenger made by NewMessenger(k, log), each of Send, Repeat, Live and
Lookup hands exactly one request to the transport once its URL parses (and, for Send, the
message marshals), whatever the arguments; every request any of them issues carries under
X-GDB-APIKEY exactly the one value k, and nothing else in its header; Send and Repeat use
POST, Live and Lookup use GET. -/
theorem C7_api_key_header (k : GoString) (log : Logger) (env : Env) (msg : Gdb.Message)
    (rmsg : RepeatMessage) (s e : Time) :
    (∀ json, MarshalMessage env msg = .ok json → env.parseURL (sendURI msg) = none →
        ∃ req, ((NewMessenger k log).1.Send env msg).issued = [req]
          ∧ Header.Values req.Header (str "X-GDB-APIKEY") = [k]
          ∧ req.Header.length = 1 ∧ req.Method = str "POST")
    ∧ (env.parseURL (baseURI ++ str "/repeatmessages") = none →
        ∃ req, ((NewMessenger k log).1.Repeat env rmsg).issued = [req]
          ∧ Header.Values req.Header (str "X-GDB-APIKEY") = [k]
          ∧ req.Header.length = 1 ∧ req.Method = str "POST")
    ∧ (env.parseURL (baseURI ++ str "/BurstVpnStatus") = none →
        ∃ req, ((NewMessenger k log).1.Live env).issued = [req]
          ∧ Header.Values req.Header (str "X-GDB-APIKEY") = [k]
          ∧ req.Header.length = 1 ∧ req.Method = str "GET")
    ∧ (env.parseURL (lookupURI s e) = none →
        ∃ req, ((NewMessenger k log).1.Lookup env s e).issued = [req]
          ∧ Header.Values req.Header (str "X-GDB-APIKEY") = [k]
          ∧ req.Header.length = 1 ∧ req.Method = str "GET")
    ∧ (∀ req ∈ ((NewMessenger k log).1.Send env msg).issued,
        Header.Values req.Header (str "X-GDB-APIKEY") = [k]
        ∧ req.Header.length = 1 ∧ req.Method = str "POST")
    ∧ (∀ req ∈ ((NewMessenger k log).1.Repeat env rmsg).issued,
        Header.Values req.Header (str "X-GDB-APIKEY") = [k]
        ∧ req.Header.length = 1 ∧ req.Method = str "POST")
    ∧ (∀ req ∈ ((NewMessenger k log).1.Live env).issued,
        Header.Values req.Header (str "X-GDB-APIKEY") = [k]
        ∧ req.Header.length = 1 ∧ req.Method = str "GET")
    ∧ (∀ req ∈ ((NewMessenger k log).1.Lookup env s e).issued,
        Header.Values req.Header (str "X-GDB-APIKEY") = [k]
        ∧ req.Header.length = 1 ∧ req.Method = str "GET") := by
  refine ⟨fun json hm hp => ?_, fun hp => ?_, fun hp => ?_, fun hp => ?_,
    fun req h => ?_, fun req h => ?_, fun req h => ?_, fun req h => ?_⟩
  · exact ⟨_, send_issues env _ msg json hm hp, header_values_add _ _, rfl, rfl⟩
  · exact ⟨_, repeat_issues env _ rmsg hp, header_values_add _ _, rfl, rfl⟩
  · exact ⟨_, live_issues env _ hp, header_values_add _ _, rfl, rfl⟩
  · exact ⟨_, lookup_issues env _ s e hp, header_values_add _ _, rfl, rfl⟩
  · obtain ⟨json, -, -, rfl⟩ := send_issued env _ msg req h
    exact ⟨header_values_add _ _, rfl, rfl⟩
  · obtain ⟨-, rfl⟩ := repeat_issued env _ rmsg req h
    exact ⟨header_values_add _ _, rfl, rfl⟩
  · obtain ⟨-, rfl⟩ := live_issued env _ req h
    exact ⟨header_values_add _ _, rfl, rfl⟩
  · obtain ⟨-, rfl⟩ := lookup_issued env _ s e req h
    exact ⟨header_values_add _ _, rfl, rfl⟩

/-- Witness for C7: against the mock transport, the client constructed with API key
test-key sends one POST for Send, one POST for Repeat, one GET for Live and one GET for
Lookup, each carrying X-GDB-APIKEY: test-key. -/
theorem C7_api_key_header_witness :
    (∃ req, (testMessenger.Send (mockEnv 200 [] (.ok .null)) helloMessage).issued = [req]
        ∧ Header.Values req.Header (str "X-GDB-APIKEY") = [str "test-key"]
        ∧ req.Header.length = 1 ∧ req.Method = str "POST")
    ∧ (∃ req, (testMessenger.Repeat (mockEnv 200 [] (.ok .null)) sampleRepeat).issued = [req]
        ∧ Header.Values req.Header (str "X-GDB-APIKEY") = [str "test-key"]
        ∧ req.Header.length = 1 ∧ req.Method = str "POST")
    ∧ (∃ req, (testMessenger.Live (mockEnv 200 [] (.ok .null))).issued = [req]
        ∧ Header.Values req.Header (str "X-GDB-APIKEY") = [str "test-key"]
        ∧ req.Header.length = 1 ∧ req.Method = str "GET")
    ∧ (∃ req, (testMessenger.Lookup (mockEnv 200 [] (.ok .null)) Time.zero Time.zero).issued
          = [req]
        ∧ Header.Values req.Header (str "X-GDB-APIKEY") = [str "test-key"]
        ∧ req.Header.length = 1 ∧ req.Method = str "GET") :=
  ⟨(C7_api_key_header (str "test-key") ⟨0⟩ (mockEnv 200 [] (.ok .null)) helloMessage
      sampleRepeat Time.zero Time.zero).1 [] rfl rfl,
   (C7_api_key_header (str "test-key") ⟨0⟩ (mockEnv 200 [] (.ok .null)) helloMessage
      sampleRepeat Time.zero Time.zero).2.1 rfl,
   (C7_api_key_header (str "test-key") ⟨0⟩ (mockEnv 200 [] (.ok .null)) helloMessage
      sampleRepeat Time.zero Time.zero).2.2.1 rfl,
   (C7_api_key_header (str "test-key") ⟨0⟩ (mockEnv 200 [] (.ok .null)) helloMessage
      sampleRepeat Time.zero Time.zero).2.2.2.1 rfl⟩

/-! ## Lookup request -/

/-- C6: the URI Lookup requests is the textmessages endpoint followed by ?startDate=, the
RFC3339 text of startDate, &endDate= and the RFC3339 text of endDate; every request Lookup
issues is a GET of that URI; for 2023-01-01T00:00:00Z and 2023-01-31T23:59:59Z the query
string is startDate=2023-01-01T00:00:00Z&endDate=2023-01-31T23:59:59Z. -/
theorem C6_lookup_uri (startDate endDate : Time) :
    lookupURI startDate endDate =
        str "https://send.globaldataburst.com/api/textmessages?startDate="
        ++ startDate.FormatRFC3339 ++ str "&endDate=" ++ endDate.FormatRFC3339
    ∧ (∀ (env : Env) (m : messenger), ∀ req ∈ (m.Lookup env startDate endDate).issued,
        req.URL = lookupURI startDate endDate ∧ req.Method = str "GET")
    ∧ lookupURI ⟨2023, 1, 1, 0, 0, 0, 0, 0⟩ ⟨2023, 1, 31, 23, 59, 59, 0, 0⟩ =
        str "https://send.globaldataburst.com/api/textmessages" ++ str "?"
          ++ str "startDate=2023-01-01T00:00:00Z&endDate=2023-01-31T23:59:59Z" := by
  refine ⟨?_, fun env m req h => ?_, by decide⟩
  · unfold lookupURI
    rw [textmessages_endpoint]
    simp only [List.append_assoc]
    rfl
  · obtain ⟨-, rfl⟩ := lookup_issued env m _ _ req h
    exact ⟨rfl, rfl⟩

/-! ## Unescaped query parameters -/

theorem stringOfByte_cases :
    ∀ b : byte,
      stringOfByte b =
          (if b.val < 128 then [b]
           else [toByte (0xC0 + b.val / 64), toByte (0x80 + b.val % 64)])
        ∧ stringOfByte b ≠ decimal b.val := by
  decide

/-- C9 fails as stated: for the service mask byte 200 the text after &serviceMask= is the
two bytes 195, 136 (the UTF-8 form of code point 200), not the single byte 200. -/
theorem C9_counterexample :
    sendURI { Message.zero with ServiceMask := some 200 } =
        str "https://send.globaldataburst.com/api/textmessages?message=&serviceMask="
          ++ [195, 136] ++ str "&sendDirect=false"
      ∧ stringOfByte 200 ≠ [200] := by
  decide

/-- C9 as amended: when ServiceMask is set to b, the text Send appends after &serviceMask=
is the UTF-8 encoding of code point b: the single byte b for b below 128, and the two bytes
0xC0 + b / 64, 0x80 + b % 64 for b from 128 to 255; it is never the decimal text of b. -/
theorem C9_service_mask_text (msg : Gdb.Message) (b : byte) (h : msg.ServiceMask = some b) :
    sendURI msg =
        (str "https://send.globaldataburst.com/api/textmessages"
          ++ (match msg.IMEI with
              | some imei => str "/" ++ imei
              | none => [])
          ++ (str "?message=" ++ msg.Message) ++ str "&serviceMask=")
        ++ (if b.val < 128 then [b]
            else [toByte (0xC0 + b.val / 64), toByte (0x80 + b.val % 64)])
        ++ (str "&sendDirect=" ++ FormatBool msg.SendDirect)
      ∧ stringOfByte b ≠ decimal b.val := by
  refine ⟨?_, (stringOfByte_cases b).2⟩
  rw [sendURI_eq, h, ← (stringOfByte_cases b).1]
  simp only [List.append_assoc]

/-- Witness for C9 as amended, at the mask bytes 98 (one byte) and 200 (two bytes). -/
theorem C9_service_mask_text_witness :
    sendURI { Message.zero with ServiceMask := some 98 } =
        str "https://send.globaldataburst.com/api/textmessages?message=&serviceMask=b&sendDirect=false"
      ∧ sendURI { Message.zero with ServiceMask := some 200 } =
        str "https://send.globaldataburst.com/api/textmessages?message=&serviceMask=È&sendDirect=false" :=
  ⟨(C9_service_mask_text { Message.zero with ServiceMask := some 98 } 98 rfl).1.trans (by decide),
   (C9_service_mask_text { Message.zero with ServiceMask := some 200 } 200 rfl).1.trans
     (by decide)⟩

/-- C10: the URI Send builds does not determine the message text and service mask: the
text a&serviceMask=b without a mask and the text a with mask byte 0x62 give the same URI,
whatever the IMEI, the SendDirect flag and the other fields. -/
theorem C10_uri_not_injective (imei : Option GoString) (sendDirect : Bool) (o : RepeatOptions)
    (t u : Time) (a : Slice BroadcastCoverageArea) (g : Slice Int) (d : Slice DeliveryPoint) :
    sendURI ⟨str "a&serviceMask=b", none, imei, sendDirect, o, t, u, a, g, d⟩ =
        sendURI ⟨str "a", some 0x62, imei, sendDirect, o, t, u, a, g, d⟩
      ∧ (str "a&serviceMask=b", (none : Option byte)) ≠ (str "a", some 0x62) := by
  refine ⟨?_, by decide⟩
  rw [sendURI_eq, sendURI_eq]
  simp only [List.append_assoc, List.nil_append]
  congr 2

/-! ## Decoding lookup records -/

theorem Decoded.done_andThen {α : Type} (a : α) (f : α → Decoded α) :
    (Decoded.done a).andThen f = f a := rfl

theorem Decoded.map_done {α β : Type} (a : α) (f : α → β) :
    (Decoded.done a).map f = Decoded.done (f a) := rfl

theorem LookupField.name_inj (f g : LookupField) : f.name = g.name ↔ f = g := by
  cases f <;> cases g <;> decide

theorem lookupField_match (env : Env) (f : LookupField) :
    matchField env LookupField.name LookupField.all f.name = some f := by
  cases f <;> rfl

theorem LookupField.lookup_single (f g : LookupField) (v : JSON) :
    List.lookup g.name [(f.name, v)] = if g = f then some v else none := by
  by_cases h : g = f
  · subst h
    simp [List.lookup]
  · have hn : (g.name == f.name) = false :=
      beq_eq_false_iff_ne.2 (fun hh => h ((LookupField.name_inj g f).1 hh))
    simp [List.lookup, h, hn]

theorem decodeInt_fits (env : Env) (cur : Int) (v : JSON) (h : fits env .int v = true) :
    decodeInt env cur v = .done (readInt cur (some v)) := by
  cases v with
  | num n =>
    cases hp : parseInt n with
    | none => simp [fits, hp] at h
    | some i => simp [decodeInt, readInt, hp]
  | null => rfl
  | _ => simp [fits] at h

theorem decodeString_fits (env : Env) (cur : GoString) (v : JSON)
    (h : fits env .string v = true) :
    decodeString env cur v = .done (readString cur (some v)) := by
  cases v with
  | str s => rfl
  | null => rfl
  | _ => simp [fits] at h

theorem decodeFloat_fits (env : Env) (cur : float64) (v : JSON)
    (h : fits env .float v = true) :
    decodeFloat env cur v = .done (readFloat env cur (some v)) := by
  cases v with
  | num n =>
    cases hp : env.parseFloat n with
    | none => simp [fits, hp] at h
    | some i => simp [decodeFloat, readFloat, hp]
  | null => rfl
  | _ => simp [fits] at h

theorem decodeTime_fits (env : Env) (cur : Time) (v : JSON) (h : fits env .time v = true) :
    decodeTime env cur v = .done (readTime env cur (some v)) := by
  cases v <;> first
    | rfl
    | (simp only [fits] at h
       simp only [decodeTime, readTime]
       split <;> simp_all)

theorem decodeElems_strings (env : Env) (xs : List JSON) (h : xs.all JSON.isStr = true) :
    ∀ old, decodeElems (decodeString env) [] old xs = .done (xs.map JSON.strVal) := by
  induction xs with
  | nil => intro old; rfl
  | cons x xs ih =>
    intro old
    simp only [List.all_cons, Bool.and_eq_true] at h
    cases x with
    | str s =>
      simp only [decodeElems, decodeString, Decoded.done, ih h.2, List.map_cons, JSON.strVal,
        firstError]
    | _ => simp [JSON.isStr] at h

theorem decodeStrings_fits (env : Env) (cur : Slice GoString) (v : JSON)
    (h : fits env .strings v = true) :
    decodeSlice env (str "[]string") (decodeString env) [] cur v
      = .done (readStrings cur (some v)) := by
  cases v with
  | arr xs =>
    simp only [fits] at h
    simp only [decodeSlice, decodeElems_strings env xs h, Decoded.map_done, readStrings]
  | null => rfl
  | _ => simp [fits] at h

theorem readInt_none (d : Int) : readInt d none = d := rfl

theorem readString_none (d : GoString) : readString d none = d := rfl

theorem readFloat_none (env : Env) (d : float64) : readFloat env d none = d := rfl

theorem readTime_none (env : Env) (d : Time) : readTime env d none = d := rfl

theorem readStrings_none (d : Slice GoString) : readStrings d none = d := rfl

theorem Lookup.set_fits (env : Env) (r : Lookup) (f : LookupField) (v : JSON)
    (h : fits env f.shape v = true) :
    r.set env f v = .done (r.over env [(f.name, v)]) := by
  cases f <;> simp only [LookupField.shape] at h <;> simp only [Lookup.set] <;>
    (first
      | rw [decodeInt_fits env _ v h]
      | rw [decodeString_fits env _ v h]
      | rw [decodeFloat_fits env _ v h]
      | rw [decodeTime_fits env _ v h]
      | rw [decodeStrings_fits env _ v h]) <;>
    simp only [Decoded.map_done, Lookup.over, LookupField.lookup_single, reduceCtorEq,
      if_false, if_true, readInt_none, readString_none, readFloat_none, readTime_none,
      readStrings_none]

theorem lookup_absent (k : GoString) (members : List (GoString × JSON))
    (h : k ∉ members.map Prod.fst) : members.lookup k = none := by
  induction members with
  | nil => rfl
  | cons kv rest ih =>
    obtain ⟨k', v⟩ := kv
    simp only [List.map_cons, List.mem_cons, not_or] at h
    have hne : (k == k') = false := beq_eq_false_iff_ne.2 h.1
    simp only [List.lookup, hne]
    exact ih h.2

theorem read_step {X : Type} (R : X → Option JSON → X) (hR : ∀ a, R a none = a) (a : X)
    (g k : GoString) (v : JSON) (rest : List (GoString × JSON)) (hk : rest.lookup k = none) :
    R (R a (List.lookup g [(k, v)])) (rest.lookup g) = R a (List.lookup g ((k, v) :: rest)) := by
  by_cases h : g = k
  · subst h
    simp [List.lookup, hk, hR]
  · have hne : (g == k) = false := beq_eq_false_iff_ne.2 h
    simp [List.lookup, hne, hR]

theorem Lookup.over_cons (env : Env) (r : Lookup) (k : GoString) (v : JSON)
    (rest : List (GoString × JSON)) (hk : rest.lookup k = none) :
    (r.over env [(k, v)]).over env rest = r.over env ((k, v) :: rest) := by
  simp only [Lookup.over]
  congr 1 <;> exact read_step _ (fun _ => rfl) _ _ _ _ _ hk

theorem LookupField.mem_all (f : LookupField) : f ∈ LookupField.all := by
  cases f <;> decide

theorem matchField_none_name (env : Env) (k : GoString)
    (h : matchField env LookupField.name LookupField.all k = none) (g : LookupField) :
    (g.name == k) = false := by
  unfold matchField at h
  split at h
  · cases h
  · rename_i hfind
    have hg := List.find?_eq_none.1 hfind g (LookupField.mem_all g)
    simpa using hg

theorem Lookup.over_skip (env : Env) (r : Lookup) (k : GoString) (v : JSON)
    (rest : List (GoString × JSON)) (hk : ∀ g : LookupField, (g.name == k) = false) :
    r.over env ((k, v) :: rest) = r.over env rest := by
  simp only [Lookup.over, List.lookup, hk]

theorem Lookup.decodeMembers_wellFormed (env : Env) :
    ∀ (members : List (GoString × JSON)) (r : Lookup),
      (members.map Prod.fst).Nodup → members.all (memberFits env) = true →
      decodeMembers (Lookup.setKey env) members r = .done (r.over env members) := by
  intro members
  induction members with
  | nil => intro r _ _; rfl
  | cons kv rest ih =>
    intro r hnd hall
    obtain ⟨k, v⟩ := kv
    simp only [List.map_cons, List.nodup_cons] at hnd
    simp only [List.all_cons, Bool.and_eq_true] at hall
    obtain ⟨hfit, hrest⟩ := hall
    simp only [memberFits, Bool.or_eq_true, List.any_eq_true, Bool.and_eq_true,
      decide_eq_true_eq, Option.isNone_iff_eq_none] at hfit
    rcases hfit with ⟨f, -, hname, hshape⟩ | hnone
    · subst hname
      simp only [decodeMembers, Lookup.setKey, lookupField_match,
        Lookup.set_fits env r f v hshape, Decoded.done_andThen, ih _ hnd.2 hrest]
      rw [Lookup.over_cons env r f.name v rest (lookup_absent _ _ hnd.1)]
    · simp only [decodeMembers, Lookup.setKey, hnone, Decoded.done_andThen, ih _ hnd.2 hrest,
        Lookup.over_skip env r k v rest (matchField_none_name env k hnone)]

theorem Lookup.decode_wellFormed (env : Env) (cur : Lookup) (o : JSON)
    (h : WellFormedRecord env o = true) :
    Lookup.decode env cur o = .done (match o with
      | .obj members => cur.over env members
      | _ => cur) := by
  cases o with
  | obj members =>
    simp only [WellFormedRecord, Bool.and_eq_true, decide_eq_true_eq] at h
    simp only [Lookup.decode, decodeStruct]
    exact Lookup.decodeMembers_wellFormed env members cur h.1 h.2
  | _ => simp [WellFormedRecord] at h

theorem decodeElems_wellFormed (env : Env) (objs : List JSON)
    (h : ∀ o ∈ objs, WellFormedRecord env o = true) :
    decodeElems (Lookup.decode env) Lookup.zero [] objs = .done (objs.map (recordOf env)) := by
  induction objs with
  | nil => rfl
  | cons o objs ih =>
    have ho := h o (List.mem_cons_self _ _)
    have ht := ih (fun x hx => h x (List.mem_cons_of_mem _ hx))
    simp only [decodeElems, List.head?_nil, Option.getD_none, List.tail_nil,
      Lookup.decode_wellFormed env Lookup.zero o ho, ht, Decoded.done, List.map_cons,
      firstError]
    cases o with
    | obj members => rfl
    | _ => simp [WellFormedRecord] at ho

theorem lookup_ret_of_response (env : Env) (m : messenger) (s e : Time) (req : Request)
    (resp : Response) (h : req ∈ (m.Lookup env s e).issued)
    (hdo : env.Do m.client req = .ok resp) :
    (m.Lookup env s e).ret =
      if resp.StatusCode < 200 ∨ resp.StatusCode ≥ 300 then
        (none, some (errorsNew (str "Non-200 Response")))
      else
        match resp.Body with
        | .error err => (none, some err)
        | .ok body =>
          match UnmarshalLookups env body none with
          | (_, some err) => (none, some err)
          | (results, none) => (results, none) := by
  obtain ⟨hp, rfl⟩ := lookup_issued env m s e _ h
  unfold messenger.Lookup NewRequest
  simp only [hp, hdo]
  repeat' split
  all_goals simp_all

theorem mock_lookup_issued (c : Int) (b : GoString) (d : Except GoError JSON) (s e : Time) :
    lookupRequest s e ∈ (testMessenger.Lookup (mockEnv c b d) s e).issued := by
  have h : (testMessenger.Lookup (mockEnv c b d) s e).issued = [lookupRequest s e] := by
    unfold messenger.Lookup NewRequest
    simp only [mockEnv]
    repeat' split
    all_goals rfl
  rw [h]
  exact List.mem_singleton.2 rfl

/-- C3: when the transport answers Lookup with a 2xx response whose body is a JSON array
of N well-formed lookup-record objects, Lookup returns no error and the N records of those
objects, in the array's order, each field equal to the value under its key; a record whose
object has no DeliveryStatus key has the empty DeliveryStatus; for the empty array the
result is an empty, non-nil sequence. -/
theorem C3_lookup_decodes (env : Env) (m : messenger) (s e : Time) (req : Request)
    (resp : Response) (body : GoString) (objs : List JSON)
    (h : req ∈ (m.Lookup env s e).issued) (hdo : env.Do m.client req = .ok resp)
    (hs : 200 ≤ resp.StatusCode ∧ resp.StatusCode < 300) (hb : resp.Body = .ok body)
    (hj : env.jsonScan body = .ok (.arr objs))
    (hw : ∀ o ∈ objs, WellFormedRecord env o = true) :
    (m.Lookup env s e).ret = (some (objs.map (recordOf env)), none)
    ∧ (objs.map (recordOf env)).length = objs.length
    ∧ (∀ i : Nat, (objs.map (recordOf env))[i]? = (objs[i]?).map (recordOf env))
    ∧ (∀ members, members.lookup (str "DeliveryStatus") = none →
        (recordOf env (.obj members)).DeliveryStatus = [])
    ∧ (objs = [] → (m.Lookup env s e).ret = (some [], none)) := by
  have hret : (m.Lookup env s e).ret = (some (objs.map (recordOf env)), none) := by
    rw [lookup_ret_of_response env m s e req resp h hdo, if_neg (by omega), hb]
    simp only [UnmarshalLookups, hj, decodeSlice, Option.getD_none,
      decodeElems_wellFormed env objs hw, Decoded.map_done]
    rfl
  refine ⟨hret, List.length_map _ _, fun i => List.getElem?_map _ _ _, ?_, ?_⟩
  · intro members hnone
    show readString [] (members.lookup (str "DeliveryStatus")) = []
    rw [hnone]
    rfl
  · intro hnil
    rw [hret, hnil]
    rfl

/-- Witness for C3: for a mocked 200 response holding two records, Lookup returns the
record with MessageID 42 and then the record with MessageID 43, the latter with an empty
DeliveryStatus. -/
theorem C3_lookup_decodes_witness :
    (testMessenger.Lookup (mockEnv 200 (str "two records") (.ok (.arr twoRecords)))
        Time.zero Time.zero).ret =
      (some [{ Lookup.zero with MessageID := 42 },
             { Lookup.zero with
                 MessageID := 43, MessageText := str "hi", MessageCost := ⟨7⟩,
                 Services := some [str "burst"] }], none) :=
  (C3_lookup_decodes (mockEnv 200 (str "two records") (.ok (.arr twoRecords))) testMessenger
    Time.zero Time.zero (lookupRequest Time.zero Time.zero)
    ⟨200, .ok (str "two records")⟩ (str "two records") twoRecords
    (mock_lookup_issued _ _ _ _ _) rfl (by decide) rfl rfl (by decide)).1.trans (by decide)

/-! ## Rejected bodies -/

theorem Decoded.failed_done {α : Type} (a : α) : (Decoded.done a).failed = false := rfl

theorem Decoded.failed_mismatch {α : Type} (env : Env) (a : α) (v : JSON) (t : GoString) :
    (Decoded.mismatch env a v t).failed = true := rfl

theorem Decoded.failed_map {α β : Type} (f : α → β) (d : Decoded α) :
    (d.map f).failed = d.failed := rfl

theorem decodeInt_failed (env : Env) (cur : Int) (v : JSON) :
    (decodeInt env cur v).failed = illTyped env .int v := by
  cases v with
  | num n => cases hp : parseInt n <;> simp [decodeInt, illTyped, hp, Decoded.failed_done,
      Decoded.failed_mismatch]
  | _ => rfl

theorem decodeString_failed (env : Env) (cur : GoString) (v : JSON) :
    (decodeString env cur v).failed = illTyped env .string v := by
  cases v <;> rfl

theorem decodeFloat_failed (env : Env) (cur : float64) (v : JSON) :
    (decodeFloat env cur v).failed = illTyped env .float v := by
  cases v with
  | num n => cases hp : env.parseFloat n <;> simp [decodeFloat, illTyped, hp,
      Decoded.failed_done, Decoded.failed_mismatch]
  | _ => rfl

theorem decodeTime_failed (env : Env) (cur : Time) (v : JSON) :
    (decodeTime env cur v).failed = illTyped env .time v := by
  cases v <;> first
    | rfl
    | (simp only [decodeTime, illTyped]
       split <;> rfl)

theorem decodeElems_failed {α : Type} (elem : α → JSON → Decoded α) (zero : α)
    (bad : JSON → Bool) (h : ∀ cur x, (elem cur x).failed = bad x) :
    ∀ (xs : List JSON) (old : List α), (decodeElems elem zero old xs).failed = xs.any bad := by
  intro xs
  induction xs with
  | nil => intro old; rfl
  | cons x xs ih =>
    intro old
    have hx := h (old.head?.getD zero) x
    have ht := ih old.tail
    simp only [decodeElems, List.any_cons, ← hx, ← ht]
    generalize elem (old.head?.getD zero) x = d
    generalize decodeElems elem zero old.tail xs = r
    obtain ⟨dv, ds, dh⟩ := d
    obtain ⟨rv, rs, rh⟩ := r
    cases dh <;> cases ds <;> cases rh <;> cases rs <;> rfl

theorem decodeMembers_failed {α : Type} (set : α → GoString → JSON → Decoded α)
    (bad : GoString × JSON → Bool) (h : ∀ a k v, (set a k v).failed = bad (k, v)) :
    ∀ (members : List (GoString × JSON)) (a : α),
      (decodeMembers set members a).failed = members.any bad := by
  intro members
  induction members with
  | nil => intro a; rfl
  | cons kv rest ih =>
    intro a
    obtain ⟨k, v⟩ := kv
    have hx := h a k v
    have ht := ih (set a k v).val
    simp only [decodeMembers, List.any_cons, ← hx, ← ht, Decoded.andThen]
    generalize decodeMembers set rest (set a k v).val = r
    generalize set a k v = d
    obtain ⟨dv, ds, dh⟩ := d
    obtain ⟨rv, rs, rh⟩ := r
    cases dh <;> cases ds <;> cases rh <;> cases rs <;> rfl

theorem decodeStrings_failed (env : Env) (cur : Slice GoString) (v : JSON) :
    (decodeSlice env (str "[]string") (decodeString env) [] cur v).failed
      = illTyped env .strings v := by
  cases v with
  | arr xs =>
    simp only [decodeSlice, Decoded.failed_map, illTyped]
    exact decodeElems_failed (decodeString env) [] (fun x => !(x.isStr || x.isNull))
      (fun cur x => by cases x <;> rfl) xs _
  | _ => rfl

theorem Lookup.set_failed (env : Env) (r : Lookup) (f : LookupField) (v : JSON) :
    (r.set env f v).failed = illTyped env f.shape v := by
  cases f <;>
    simp only [Lookup.set, Decoded.failed_map, LookupField.shape, decodeInt_failed,
      decodeString_failed, decodeFloat_failed, decodeTime_failed, decodeStrings_failed]

theorem Lookup.setKey_failed (env : Env) (r : Lookup) (k : GoString) (v : JSON) :
    (r.setKey env k v).failed = memberIll env (k, v) := by
  simp only [Lookup.setKey, memberIll]
  cases matchField env LookupField.name LookupField.all k with
  | none => rfl
  | some f => exact Lookup.set_failed env r f v

theorem Lookup.decode_failed (env : Env) (cur : Lookup) (o : JSON) :
    (Lookup.decode env cur o).failed = illFormedRecord env o := by
  cases o with
  | obj members =>
    exact decodeMembers_failed (Lookup.setKey env) (memberIll env)
      (Lookup.setKey_failed env) members cur
  | _ => rfl

theorem unmarshalLookups_failed (env : Env) (body : GoString) :
    (UnmarshalLookups env body none).2.isSome = rejected env body := by
  unfold UnmarshalLookups rejected
  cases env.jsonScan body with
  | error err => rfl
  | ok doc =>
    cases doc with
    | arr objs =>
      exact decodeElems_failed (Lookup.decode env) Lookup.zero (illFormedRecord env)
        (Lookup.decode_failed env) objs []
    | _ => rfl

theorem lookup_ret_of_body (env : Env) (m : messenger) (s e : Time) (resp : Response)
    (body : GoString) (hp : env.parseURL (lookupURI s e) = none)
    (hdo : env.Do m.client
      ⟨str "GET", lookupURI s e, Header.Add [] (str "X-GDB-APIKEY") m.apiKey, none⟩ = .ok resp)
    (hs : 200 ≤ resp.StatusCode ∧ resp.StatusCode < 300) (hb : resp.Body = .ok body) :
    (m.Lookup env s e).ret =
      match UnmarshalLookups env body none with
      | (_, some err) => (none, some err)
      | (results, none) => (results, none) := by
  have hi := lookup_issues env m s e hp
  rw [lookup_ret_of_response env m s e _ resp (hi ▸ List.mem_singleton.2 rfl) hdo,
    if_neg (by omega), hb]

/-- C4 fails as stated: the 200 bodies null and [null] are no JSON arrays of lookup
records, yet Lookup returns no error for them: nil for null and one zero record for
[null]. -/
theorem C4_counterexample :
    (testMessenger.Lookup (mockEnv 200 (str "null") (.ok .null)) Time.zero Time.zero).ret
        = (none, none)
    ∧ (testMessenger.Lookup (mockEnv 200 (str "[null]") (.ok (.arr [.null])))
        Time.zero Time.zero).ret = (some [Lookup.zero], none) := by
  decide

/-- C4 as amended: once the URL parses Lookup hands its request to the transport; when the
answer has a status outside [200,300), Lookup returns the non-success error and nil
whatever the body; when the status is in [200,300) and json.Unmarshal rejects the body
(malformed JSON, a document that is neither an array nor null, or an array with an element
that is neither an object nor null or that holds an ill-typed value under a Lookup field),
Lookup returns an error and nil, not the elements decoded before the error; a body that is
not rejected (null and null elements included) gives no error. -/
theorem C4_lookup_rejects (env : Env) (m : messenger) (s e : Time) (resp : Response)
    (hp : env.parseURL (lookupURI s e) = none)
    (hdo : env.Do m.client
      ⟨str "GET", lookupURI s e, Header.Add [] (str "X-GDB-APIKEY") m.apiKey, none⟩ = .ok resp) :
    (resp.StatusCode < 200 ∨ resp.StatusCode ≥ 300 →
        (m.Lookup env s e).ret = (none, some (errorsNew (str "Non-200 Response"))))
    ∧ (∀ body, 200 ≤ resp.StatusCode ∧ resp.StatusCode < 300 → resp.Body = .ok body →
        rejected env body = true → ∃ err, (m.Lookup env s e).ret = (none, some err))
    ∧ (∀ body, 200 ≤ resp.StatusCode ∧ resp.StatusCode < 300 → resp.Body = .ok body →
        rejected env body = false → (m.Lookup env s e).ret.2 = none)
    ∧ (∀ body decoded err, 200 ≤ resp.StatusCode ∧ resp.StatusCode < 300 →
        resp.Body = .ok body → UnmarshalLookups env body none = (decoded, some err) →
        (m.Lookup env s e).ret = (none, some err))
    ∧ (∀ body err, env.jsonScan body = .error err → rejected env body = true) := by
  refine ⟨fun hs => ?_, fun body hs hb hr => ?_, fun body hs hb hr => ?_,
    fun body decoded err hs hb hu => ?_, fun body err hj => ?_⟩
  · have hi := lookup_issues env m s e hp
    rw [lookup_ret_of_response env m s e _ resp (hi ▸ List.mem_singleton.2 rfl) hdo, if_pos hs]
  · rw [lookup_ret_of_body env m s e resp body hp hdo hs hb]
    rw [← unmarshalLookups_failed] at hr
    rcases hu : UnmarshalLookups env body none with ⟨decoded, oerr⟩
    rw [hu] at hr
    cases oerr with
    | none => simp at hr
    | some err => exact ⟨err, rfl⟩
  · rw [lookup_ret_of_body env m s e resp body hp hdo hs hb]
    rw [← unmarshalLookups_failed] at hr
    rcases hu : UnmarshalLookups env body none with ⟨decoded, oerr⟩
    rw [hu] at hr
    cases oerr with
    | none => rfl
    | some err => simp at hr
  · rw [lookup_ret_of_body env m s e resp body hp hdo hs hb]
    simp only [hu]
  · simp only [rejected, hj]

/-- Witness for C4 as amended: a 200 response whose second array element is no object
leaves one decoded record and a zero record behind in json.Unmarshal, and Lookup returns
nil with the error; a 200 response with a string under MessageID, a 200 response with a
malformed body and a 404 response give nil and an error as well. -/
theorem C4_lookup_rejects_witness :
    UnmarshalLookups (mockEnv 200 [] (.ok (.arr brokenRecords))) [] none =
        (some [{ Lookup.zero with MessageID := 42 }, Lookup.zero], some ⟨str "gdb.Lookup"⟩)
    ∧ (testMessenger.Lookup (mockEnv 200 [] (.ok (.arr brokenRecords))) Time.zero Time.zero).ret
        = (none, some ⟨str "gdb.Lookup"⟩)
    ∧ (∃ err, (testMessenger.Lookup (mockEnv 200 [] (.ok (.arr illTypedRecords)))
        Time.zero Time.zero).ret = (none, some err))
    ∧ (testMessenger.Lookup (mockEnv 200 (str "[1,") (.error ⟨str "unexpected end"⟩))
        Time.zero Time.zero).ret = (none, some ⟨str "unexpected end"⟩)
    ∧ (testMessenger.Lookup (mockEnv 404 (str "[]") (.ok (.arr []))) Time.zero Time.zero).ret
        = (none, some ⟨str "Non-200 Response"⟩) :=
  ⟨by decide,
   (C4_lookup_rejects (mockEnv 200 [] (.ok (.arr brokenRecords))) testMessenger Time.zero
      Time.zero ⟨200, .ok []⟩ rfl rfl).2.2.2.1 []
      (some [{ Lookup.zero with MessageID := 42 }, Lookup.zero]) ⟨str "gdb.Lookup"⟩
      (by decide) rfl (by decide),
   (C4_lookup_rejects (mockEnv 200 [] (.ok (.arr illTypedRecords))) testMessenger Time.zero
      Time.zero ⟨200, .ok []⟩ rfl rfl).2.1 [] (by decide) rfl (by decide),
   (C4_lookup_rejects (mockEnv 200 (str "[1,") (.error ⟨str "unexpected end"⟩)) testMessenger
      Time.zero Time.zero ⟨200, .ok (str "[1,")⟩ rfl rfl).2.2.2.1 (str "[1,") none
      ⟨str "unexpected end"⟩ (by decide) rfl rfl,
   (C4_lookup_rejects (mockEnv 404 (str "[]") (.ok (.arr []))) testMessenger Time.zero
      Time.zero ⟨404, .ok (str "[]")⟩ rfl rfl).1 (by decide)⟩

/-! ## The JSON body of Send -/

theorem repeatOptionsField_match (env : Env) (f : RepeatOptionsField) :
    matchField env RepeatOptionsField.name RepeatOptionsField.all f.name = some f := by
  cases f <;> rfl

theorem coverageAreaField_match (env : Env) (f : CoverageAreaField) :
    matchField env CoverageAreaField.name CoverageAreaField.all f.name = some f := by
  cases f <;> rfl

theorem deliveryPointField_match (env : Env) (f : DeliveryPointField) :
    matchField env DeliveryPointField.name DeliveryPointField.all f.name = some f := by
  cases f <;> rfl

theorem messageField_match (env : Env) (f : MessageField) :
    matchField env MessageField.name MessageField.all f.name = some f := by
  cases f <;> rfl

theorem parseInt_intLit (i : Int) (h : intFits i) : parseInt (intLit i) = some i := by
  unfold intFits at h
  unfold parseInt intLit
  by_cases hneg : i < 0
  · have hv : -((i.natAbs : Nat) : Int) = i := by omega
    simp only [hneg, decide_True, if_true, hv]
    rw [if_pos h]
  · have hv : ((i.natAbs : Nat) : Int) = i := by omega
    simp only [hneg, decide_False, Bool.false_eq_true, if_false, hv]
    rw [if_pos h]

theorem decodeInt_intLit (env : Env) (cur i : Int) (h : intFits i) :
    decodeInt env cur (.num (intLit i)) = .done i := by
  simp only [decodeInt, parseInt_intLit i h]

theorem decodeElems_encoded {α : Type} (elem : α → JSON → Decoded α) (zero : α)
    (enc : α → JSON) (xs : List α) (h : ∀ x ∈ xs, ∀ cur, elem cur (enc x) = .done x) :
    ∀ old, decodeElems elem zero old (xs.map enc) = .done xs := by
  induction xs with
  | nil => intro old; rfl
  | cons x xs ih =>
    intro old
    have hx := h x (List.mem_cons_self _ _)
    have ht := ih (fun y hy => h y (List.mem_cons_of_mem _ hy))
    simp only [List.map_cons, decodeElems, hx, ht, Decoded.done, firstError]

theorem decodeInts_encodeInts (env : Env) (cur xs : Slice Int)
    (h : ∀ g ∈ xs.getD [], intFits g) :
    decodeInts env cur (encodeInts xs) = .done xs := by
  cases xs with
  | none => rfl
  | some l =>
    simp only [Option.getD_some] at h
    simp only [decodeInts, encodeInts, decodeSlice,
      decodeElems_encoded (decodeInt env) 0 (fun i => JSON.num (intLit i)) l
        (fun x hx cur => decodeInt_intLit env cur x (h x hx)),
      Decoded.map_done]

theorem repeatOptions_decode_encode (env : Env) (cur o : RepeatOptions)
    (hc : intFits o.Count) (hi : intFits o.Interval) :
    RepeatOptions.decode env cur o.encode = .done o := by
  simp only [RepeatOptions.decode, RepeatOptions.encode, decodeStruct, decodeMembers,
    RepeatOptions.setKey, repeatOptionsField_match, RepeatOptions.set,
    decodeInt_intLit env _ _ hc, decodeInt_intLit env _ _ hi, Decoded.map_done,
    Decoded.done_andThen]

theorem coverageArea_decode_encode (env : Env) (cur a : BroadcastCoverageArea)
    (hc : intFits a.GdaCount) (hg : ∀ g ∈ a.Gdas.getD [], intFits g) :
    BroadcastCoverageArea.decode env cur a.encode = .done a := by
  simp only [BroadcastCoverageArea.decode, BroadcastCoverageArea.encode, decodeStruct,
    decodeMembers, BroadcastCoverageArea.setKey, coverageAreaField_match,
    BroadcastCoverageArea.set, decodeInt_intLit env _ _ hc, decodeString,
    decodeInts_encodeInts env _ _ hg, Decoded.map_done, Decoded.done_andThen]

theorem deliveryPoint_decode_encode (env : Env) (p : DeliveryPoint)
    (hlat : floatRoundTrips env p.Latitude) (hlon : floatRoundTrips env p.Longitude)
    (hr : intFits p.Radius) :
    ∃ j, DeliveryPoint.encode env p = .ok j ∧ ∀ cur, DeliveryPoint.decode env cur j = .done p := by
  obtain ⟨nlat, hflat, hplat⟩ := hlat
  obtain ⟨nlon, hflon, hplon⟩ := hlon
  refine ⟨.obj [(DeliveryPointField.Latitude.name, .num nlat),
                 (DeliveryPointField.Longitude.name, .num nlon),
                 (DeliveryPointField.Radius.name, .num (intLit p.Radius))],
    by simp only [DeliveryPoint.encode, hflat, hflon], fun cur => ?_⟩
  simp only [DeliveryPoint.decode, decodeStruct, decodeMembers, DeliveryPoint.setKey,
    deliveryPointField_match, DeliveryPoint.set, decodeFloat, hplat, hplon,
    decodeInt_intLit env _ _ hr, Decoded.map_done, Decoded.done_andThen]

theorem encodePointList_decode (env : Env) (ps : List DeliveryPoint)
    (h : ∀ p ∈ ps,
      floatRoundTrips env p.Latitude ∧ floatRoundTrips env p.Longitude ∧ intFits p.Radius) :
    ∃ js, encodePointList env ps = .ok js ∧
      ∀ old, decodeElems (DeliveryPoint.decode env) DeliveryPoint.zero old js = .done ps := by
  induction ps with
  | nil => exact ⟨[], rfl, fun _ => rfl⟩
  | cons p ps ih =>
    obtain ⟨hlat, hlon, hr⟩ := h p (List.mem_cons_self _ _)
    obtain ⟨j, hj, hdec⟩ := deliveryPoint_decode_encode env p hlat hlon hr
    obtain ⟨js, hjs, hdecs⟩ := ih (fun q hq => h q (List.mem_cons_of_mem _ hq))
    refine ⟨j :: js, by simp only [encodePointList, hj, hjs], fun old => ?_⟩
    simp only [decodeElems, hdec, hdecs, Decoded.done, firstError]

theorem decodeAreas_encodeAreas (env : Env) (cur xs : Slice BroadcastCoverageArea)
    (h : ∀ a ∈ xs.getD [], intFits a.GdaCount ∧ ∀ g ∈ a.Gdas.getD [], intFits g) :
    decodeSlice env (str "[]gdb.BroadcastCoverageArea") (BroadcastCoverageArea.decode env)
      BroadcastCoverageArea.zero cur (encodeAreas xs) = .done xs := by
  cases xs with
  | none => rfl
  | some l =>
    simp only [Option.getD_some] at h
    simp only [encodeAreas, decodeSlice,
      decodeElems_encoded (BroadcastCoverageArea.decode env) BroadcastCoverageArea.zero
        BroadcastCoverageArea.encode l
        (fun x hx cur => coverageArea_decode_encode env cur x (h x hx).1 (h x hx).2),
      Decoded.map_done]

theorem encodePoints_decode (env : Env) (xs : Slice DeliveryPoint)
    (h : ∀ p ∈ xs.getD [],
      floatRoundTrips env p.Latitude ∧ floatRoundTrips env p.Longitude ∧ intFits p.Radius) :
    ∃ j, encodePoints env xs = .ok j ∧
      ∀ cur, decodeSlice env (str "[]gdb.DeliveryPoint") (DeliveryPoint.decode env)
        DeliveryPoint.zero cur j = .done xs := by
  cases xs with
  | none => exact ⟨.null, rfl, fun _ => rfl⟩
  | some l =>
    simp only [Option.getD_some] at h
    obtain ⟨js, hjs, hdec⟩ := encodePointList_decode env l h
    refine ⟨.arr js, by simp only [encodePoints, hjs], fun cur => ?_⟩
    simp only [decodeSlice, hdec, Decoded.map_done]

theorem message_decode_encode (env : Env) (msg : Gdb.Message) (hv : msg.Valid env) :
    ∃ doc, Message.encode env msg = .ok doc ∧
      Message.decode env Message.zero doc = .done msg.jsonPart := by
  obtain ⟨hc, hi, ⟨sd, hmd, hud⟩, ⟨se, hme, hue⟩, ha, hg, hp, -⟩ := hv
  obtain ⟨jp, hjp, hdp⟩ := encodePoints_decode env msg.DeliveryPoints hp
  refine ⟨.obj [(MessageField.RepeatOptions.name, msg.RepeatOptions.encode),
                (MessageField.DeliveryTime.name, .str sd),
                (MessageField.ExpirationTime.name, .str se),
                (MessageField.BroadcastCoverageAreas.name, encodeAreas msg.BroadcastCoverageAreas),
                (MessageField.GlobalDeliveryAreas.name, encodeInts msg.GlobalDeliveryAreas),
                (MessageField.DeliveryPoints.name, jp)],
    by simp only [Message.encode, hmd, hme, hjp], ?_⟩
  simp only [Message.decode, decodeStruct, decodeMembers, Message.setKey,
    messageField_match, Message.set, repeatOptions_decode_encode env _ _ hc hi,
    decodeTime, hud, hue, decodeAreas_encodeAreas env _ _ ha, decodeInts_encodeInts env _ _ hg,
    hdp, Decoded.map_done, Decoded.done_andThen]
  rfl

theorem decodeMembers_inv {α : Type} (P : α → Prop) (set : α → GoString → JSON → Decoded α)
    (hset : ∀ a k v, P a → P (set a k v).val) :
    ∀ (members : List (GoString × JSON)) (a : α), P a → P (decodeMembers set members a).val := by
  intro members
  induction members with
  | nil => intro a ha; exact ha
  | cons kv rest ih =>
    intro a ha
    obtain ⟨k, v⟩ := kv
    have h1 := hset a k v ha
    simp only [decodeMembers, Decoded.andThen]
    split
    · exact h1
    · exact ih _ h1

theorem Message.decode_keeps_text (env : Env) (m : Gdb.Message) (j : JSON) :
    (Message.decode env m j).val.Message = m.Message := by
  cases j with
  | obj members =>
    refine decodeMembers_inv (fun a => a.Message = m.Message) (Message.setKey env) ?_ members m rfl
    intro a k v ha
    simp only [Message.setKey]
    split
    · exact ha
    · rename_i f _
      cases f <;> exact ha
  | _ => rfl

theorem UnmarshalMessage_keeps_text (env : Env) (body : GoString) (m : Gdb.Message) :
    (UnmarshalMessage env body m).1.Message = m.Message := by
  unfold UnmarshalMessage
  split
  · rfl
  · exact Message.decode_keeps_text env m _

theorem sampleMessage_valid : Message.Valid sampleEnv sampleMessage := by
  refine ⟨?_, ?_, ⟨_, rfl, rfl⟩, ⟨_, rfl, rfl⟩, ?_, ?_, ?_, fun doc h => h⟩
  · norm_num [intFits, sampleMessage]
  · norm_num [intFits, sampleMessage]
  · intro a ha
    simp only [sampleMessage, Option.getD_some, List.mem_singleton] at ha
    subst ha
    norm_num [intFits]
  · intro g hg
    simp [sampleMessage] at hg
  · intro p hp
    simp only [sampleMessage, Option.getD_some, List.mem_singleton] at hp
    subst hp
    exact ⟨⟨_, rfl, rfl⟩, ⟨_, rfl, rfl⟩, by norm_num [intFits]⟩

/-- C5 fails as stated: sampleMessage is a valid message with the text hello and the
direct-send flag set, the body Send builds for it parses back to a message with an empty
text, and no JSON text at all parses back to sampleMessage. -/
theorem C5_counterexample :
    Message.Valid sampleEnv sampleMessage
    ∧ (∃ body, MarshalMessage sampleEnv sampleMessage = .ok body
        ∧ (UnmarshalMessage sampleEnv body Message.zero).1.Message = []
        ∧ sampleMessage.Message = str "hello")
    ∧ ¬ ∃ (env : Env) (body : GoString),
        (UnmarshalMessage env body Message.zero).1 = sampleMessage := by
  refine ⟨sampleMessage_valid, ⟨[], rfl, UnmarshalMessage_keeps_text _ _ _, rfl⟩, ?_⟩
  rintro ⟨env, body, h⟩
  have ht := UnmarshalMessage_keeps_text env body Message.zero
  rw [h] at ht
  exact absurd ht (by decide)

/-- C5 as amended: for every valid Message the JSON body Send puts in the request is the
serialization of the six fields without the tag json:"-" (repeat options, delivery and
expiration times, coverage areas, area identifiers, delivery points): parsing it back into
a Message gives no error and a value equal to msg in those six fields, with the text empty,
the service mask and device identifier unset and the direct-send flag false. -/
theorem C5_body_round_trip (env : Env) (msg : Gdb.Message) (hv : msg.Valid env) :
    ∃ body, MarshalMessage env msg = .ok body
      ∧ (∀ m : messenger, ∀ req ∈ (m.Send env msg).issued, req.Body = some body)
      ∧ UnmarshalMessage env body Message.zero = (msg.jsonPart, none) := by
  obtain ⟨doc, henc, hdec⟩ := message_decode_encode env msg hv
  have hm : MarshalMessage env msg = .ok (env.jsonText doc) := by
    simp only [MarshalMessage, henc]
  refine ⟨env.jsonText doc, hm, fun m req h => ?_, ?_⟩
  · obtain ⟨json, hj, -, rfl⟩ := send_issued env m msg req h
    rw [hm] at hj
    cases hj
    rfl
  · simp only [UnmarshalMessage, hv.2.2.2.2.2.2.2 doc henc, hdec]
    rfl

/-- Witness for C5 as amended: the body of sampleMessage parses back to sampleMessage
with its text, service mask, device identifier and direct-send flag zeroed. -/
theorem C5_body_round_trip_witness :
    ∃ body, MarshalMessage sampleEnv sampleMessage = .ok body
      ∧ (∀ m : messenger, ∀ req ∈ (m.Send sampleEnv sampleMessage).issued, req.Body = some body)
      ∧ UnmarshalMessage sampleEnv body Message.zero =
          ({ sampleMessage with Message := [], SendDirect := false }, none) :=
  C5_body_round_trip sampleEnv sampleMessage sampleMessage_valid

end Gdb
